import Mathlib

set_option maxRecDepth 100000
set_option maxHeartbeats 4000000

/-!
Verification development for the CloudTrail-to-IAM least-privilege policy
generator (`src/iam/sdk/policy_generator/generate_policy.py`,
`src/iam/sdk/policy_generator/unique_events_from_logs.py`, and the
`PolicyStatement` serializer in `src/iam/sdk/least_privilege_policy_generator.py`).

The Python code is shallowly embedded:
* Python `set[str]` becomes `Finset String`; Python `sorted` on strings becomes
  `Finset.sort (· ≤ ·)` (both orders are lexicographic by code point).
* Python dicts that the code only reads through fixed keys become structures
  with `Option` fields (`none` models an absent key).
* JSON payload values (`requestParameters`, `responseElements`, condition
  blocks) become the inductive type `JVal`; numbers, booleans and null are
  collapsed into `JVal.jother` because the embedded code never inspects them.
* `json.dumps(..., separators=(",", ":"))` is modelled by the character-length
  function `jsonLen`, which accounts for the `ensure_ascii` escaping rules of
  Python's `json` module.
* `hash(frozenset(...))`, used only as a grouping key, is modelled by the
  `Finset String` itself (a collision-free hash).
* Iteration over a Python `set` (only used where the final result is
  order-insensitive, or where only counts and attached data matter) is
  modelled by iterating the sorted list of the set.
* ISO-8601 timestamps are modelled as already-parsed epoch seconds
  (`Int`): the spec requires `eventTime` to be an ISO-8601 string, and the
  analyzer's per-record path is only exercised on such records.
-/

/-! ## Python string primitives -/

/-- Auxiliary scanner for Python's substring operator. -/
def strContainsAux (needle : List Char) : List Char → Bool
  | [] => needle.isEmpty
  | c :: rest => needle.isPrefixOf (c :: rest) || strContainsAux needle rest

/-- Python's `needle in hay` on strings. -/
def pySubstr (needle hay : String) : Bool :=
  strContainsAux needle.data hay.data

/-- Python's `str.lower()` (ASCII case mapping, which covers every cased
character the pipeline handles). -/
def pyLower (s : String) : String :=
  ⟨s.data.map Char.toLower⟩

/-- Auxiliary for `pyTitle`: the flag records whether the previous character
was alphabetic. -/
def pyTitleAux : Bool → List Char → List Char
  | _, [] => []
  | prevAlpha, c :: rest =>
    if c.isAlpha then
      (if prevAlpha then c.toLower else c.toUpper) :: pyTitleAux true rest
    else
      c :: pyTitleAux false rest

/-- Python's `str.title()` (restricted to ASCII-cased input, which is all the
pipeline produces: service identifiers such as `"s3"`). -/
def pyTitle (s : String) : String :=
  ⟨pyTitleAux false s.data⟩

/-- Python's format spec `"%02d"` on a natural number. -/
def format02 (n : Nat) : String :=
  if n < 10 then "0" ++ toString n else toString n

/-- Python's `str.startswith`. -/
def pyStartsWith (s pre : String) : Bool :=
  pre.data.isPrefixOf s.data

/-- Python's `str.endswith`. -/
def pyEndsWith (s post : String) : Bool :=
  post.data.isSuffixOf s.data

/-- Splitting scanner for `pySplitOn`; the fuel starts at the list length and
every step consumes at least one character. -/
def pySplitChars (sep : List Char) : Nat → List Char → List Char → List (List Char)
  | _, acc, [] => [acc.reverse]
  | 0, acc, l => [acc.reverse ++ l]
  | fuel + 1, acc, c :: rest =>
    if sep.isPrefixOf (c :: rest) then
      acc.reverse :: pySplitChars sep fuel [] ((c :: rest).drop sep.length)
    else
      pySplitChars sep fuel (c :: acc) rest

/-- Python's `str.split(sep)` for a non-empty separator (the only use in the
embedded code; Python raises on an empty one). -/
def pySplitOn (s sep : String) : List String :=
  if sep.data.isEmpty then [s]
  else (pySplitChars sep.data s.data.length [] s.data).map String.mk

/-- Replacement scanner for `pyReplace`; same fuel discipline. -/
def pyReplaceChars (pat rep : List Char) : Nat → List Char → List Char
  | _, [] => []
  | 0, l => l
  | fuel + 1, c :: rest =>
    if pat.isPrefixOf (c :: rest) then
      rep ++ pyReplaceChars pat rep fuel ((c :: rest).drop pat.length)
    else
      c :: pyReplaceChars pat rep fuel rest

/-- Python's `str.replace(pat, rep)` for a non-empty pattern: every
non-overlapping occurrence, left to right. -/
def pyReplace (s pat rep : String) : String :=
  ⟨pyReplaceChars pat.data rep.data s.data.length s.data⟩

/-! ## The code-point order on strings and Python's `sorted`

Python compares strings lexicographically by code point; `strLexLe` is that
order on character lists and `pyStrLe` on strings. `insertionSortBy` is a
stable sort usable with any total transitive boolean comparison; it models
Python's (stable) `sorted`, both for strings and, in the size optimizer,
for `sorted(key=..., reverse=True)`. -/

def strLexLe : List Char → List Char → Bool
  | [], _ => true
  | _ :: _, [] => false
  | a :: as, b :: bs =>
    if a.toNat < b.toNat then true
    else if b.toNat < a.toNat then false
    else strLexLe as bs

/-- Python's `a <= b` on strings (code-point lexicographic order). -/
def pyStrLe (a b : String) : Bool :=
  strLexLe a.data b.data

theorem strLexLe_total (a b : List Char) : strLexLe a b = true ∨ strLexLe b a = true := by
  induction a generalizing b with
  | nil => left; rfl
  | cons x xs ih =>
    cases b with
    | nil => right; rfl
    | cons y ys =>
      rcases Nat.lt_trichotomy x.toNat y.toNat with h | h | h
      · left; simp [strLexLe, h]
      · rcases ih ys with h2 | h2
        · left; simp [strLexLe, h, h2]
        · right; simp [strLexLe, h, h2]
      · right; simp [strLexLe, h, Nat.lt_asymm h]

theorem strLexLe_antisymm (a b : List Char) (h1 : strLexLe a b = true)
    (h2 : strLexLe b a = true) : a = b := by
  induction a generalizing b with
  | nil =>
    cases b with
    | nil => rfl
    | cons y ys => simp [strLexLe] at h2
  | cons x xs ih =>
    cases b with
    | nil => simp [strLexLe] at h1
    | cons y ys =>
      rcases Nat.lt_trichotomy x.toNat y.toNat with h | h | h
      · simp [strLexLe, h, Nat.lt_asymm h] at h2
      · have hx : x = y := Char.eq_of_val_eq (UInt32.ext h)
        subst hx
        simp only [strLexLe, Nat.lt_irrefl, if_false] at h1 h2
        rw [ih ys h1 h2]
      · simp [strLexLe, h, Nat.lt_asymm h] at h1

theorem strLexLe_trans (a b c : List Char) (h1 : strLexLe a b = true)
    (h2 : strLexLe b c = true) : strLexLe a c = true := by
  induction a generalizing b c with
  | nil => rfl
  | cons x xs ih =>
    cases b with
    | nil => simp [strLexLe] at h1
    | cons y ys =>
      cases c with
      | nil => simp [strLexLe] at h2
      | cons z zs =>
        rcases Nat.lt_trichotomy x.toNat y.toNat with hxy | hxy | hxy
        · rcases Nat.lt_trichotomy y.toNat z.toNat with hyz | hyz | hyz
          · simp [strLexLe, Nat.lt_trans hxy hyz]
          · simp [strLexLe, hyz ▸ hxy]
          · simp [strLexLe, hyz, Nat.lt_asymm hyz] at h2
        · rcases Nat.lt_trichotomy y.toNat z.toNat with hyz | hyz | hyz
          · simp [strLexLe, hxy ▸ hyz]
          · have hxz : x.toNat = z.toNat := hxy.trans hyz
            simp only [strLexLe, hxy, Nat.lt_irrefl, if_false] at h1
            simp only [strLexLe, hyz, Nat.lt_irrefl, if_false] at h2
            simp only [strLexLe, hxz, Nat.lt_irrefl, if_false]
            exact ih ys zs h1 h2
          · simp [strLexLe, hyz, Nat.lt_asymm hyz] at h2
        · simp [strLexLe, hxy, Nat.lt_asymm hxy] at h1

theorem pyStrLe_total (a b : String) : pyStrLe a b = true ∨ pyStrLe b a = true :=
  strLexLe_total a.data b.data

theorem pyStrLe_antisymm (a b : String) (h1 : pyStrLe a b = true)
    (h2 : pyStrLe b a = true) : a = b := by
  cases a with
  | mk da =>
    cases b with
    | mk db => rw [strLexLe_antisymm da db h1 h2]

theorem pyStrLe_trans (a b c : String) (h1 : pyStrLe a b = true)
    (h2 : pyStrLe b c = true) : pyStrLe a c = true :=
  strLexLe_trans a.data b.data c.data h1 h2

/-- Stable insertion of one element under a boolean comparison. -/
def orderedInsertBy (le : α → α → Bool) (x : α) : List α → List α
  | [] => [x]
  | y :: ys => if le x y then x :: y :: ys else y :: orderedInsertBy le x ys

/-- Stable insertion sort under a boolean comparison: the model of Python's
`sorted` (stable; with `le a b := key b ≤ key a` it is
`sorted(key=key, reverse=True)`, which also keeps the original order of
equal keys). -/
def insertionSortBy (le : α → α → Bool) : List α → List α
  | [] => []
  | x :: xs => orderedInsertBy le x (insertionSortBy le xs)

theorem orderedInsertBy_perm (le : α → α → Bool) (x : α) (l : List α) :
    (orderedInsertBy le x l).Perm (x :: l) := by
  induction l with
  | nil => exact List.Perm.refl _
  | cons y ys ih =>
    by_cases h : le x y = true
    · simp [orderedInsertBy, h]
    · simp only [orderedInsertBy, h, if_false]
      exact (ih.cons y).trans (List.Perm.swap x y ys)

theorem insertionSortBy_perm (le : α → α → Bool) (l : List α) :
    (insertionSortBy le l).Perm l := by
  induction l with
  | nil => exact List.Perm.refl _
  | cons x xs ih =>
    exact (orderedInsertBy_perm le x (insertionSortBy le xs)).trans (ih.cons x)

theorem orderedInsertBy_sorted (le : α → α → Bool)
    (htotal : ∀ a b, le a b = true ∨ le b a = true)
    (htrans : ∀ a b c, le a b = true → le b c = true → le a c = true)
    (x : α) (l : List α)
    (hl : l.Sorted (fun a b => le a b = true)) :
    (orderedInsertBy le x l).Sorted (fun a b => le a b = true) := by
  induction l with
  | nil => simp [orderedInsertBy]
  | cons y ys ih =>
    rw [List.sorted_cons] at hl
    by_cases h : le x y = true
    · rw [orderedInsertBy, if_pos h, List.sorted_cons]
      refine ⟨?_, List.sorted_cons.mpr hl⟩
      intro b hb
      cases hb with
      | head => exact h
      | tail _ hb => exact htrans x y b h (hl.1 b hb)
    · rw [orderedInsertBy, if_neg h, List.sorted_cons]
      constructor
      · intro b hb
        have hmem := (orderedInsertBy_perm le x ys).mem_iff.mp hb
        cases hmem with
        | head =>
          cases htotal x y with
          | inl h2 => exact absurd h2 h
          | inr h2 => exact h2
        | tail _ hmem => exact hl.1 b hmem
      · exact ih hl.2

theorem insertionSortBy_sorted (le : α → α → Bool)
    (htotal : ∀ a b, le a b = true ∨ le b a = true)
    (htrans : ∀ a b c, le a b = true → le b c = true → le a c = true)
    (l : List α) :
    (insertionSortBy le l).Sorted (fun a b => le a b = true) := by
  induction l with
  | nil => simp [insertionSortBy]
  | cons x xs ih => exact orderedInsertBy_sorted le htotal htrans x _ ih

instance : IsAntisymm String (fun a b => pyStrLe a b = true) :=
  ⟨pyStrLe_antisymm⟩

/-- Python's `sorted` over a `set[str]`: the ascending listing of a
`Finset String`, lifted from the underlying multiset. -/
def pySortedStrings (s : Finset String) : List String :=
  Quot.liftOn s.val (insertionSortBy pyStrLe)
    (fun l1 l2 h =>
      List.eq_of_perm_of_sorted
        (((insertionSortBy_perm pyStrLe l1).trans h).trans
          (insertionSortBy_perm pyStrLe l2).symm)
        (insertionSortBy_sorted pyStrLe pyStrLe_total pyStrLe_trans l1)
        (insertionSortBy_sorted pyStrLe pyStrLe_total pyStrLe_trans l2))

theorem pySortedStrings_coe (s : Finset String) :
    (↑(pySortedStrings s) : Multiset String) = s.val := by
  rcases s with ⟨m, hm⟩
  revert hm
  refine Quotient.inductionOn m ?_
  intro l hl
  exact Quotient.sound (insertionSortBy_perm pyStrLe l)

theorem pySortedStrings_sorted (s : Finset String) :
    (pySortedStrings s).Sorted (fun a b => pyStrLe a b = true) := by
  rcases s with ⟨m, hm⟩
  revert hm
  refine Quotient.inductionOn m ?_
  intro l hl
  exact insertionSortBy_sorted pyStrLe pyStrLe_total pyStrLe_trans l

theorem pySortedStrings_toFinset (s : Finset String) :
    (pySortedStrings s).toFinset = s := by
  have h := pySortedStrings_coe s
  rw [List.toFinset, h, Finset.val_toFinset]

theorem pySortedStrings_length (s : Finset String) :
    (pySortedStrings s).length = s.card := by
  have h := pySortedStrings_coe s
  rw [Finset.card, ← h, Multiset.coe_card]

theorem pySortedStrings_nodup (s : Finset String) :
    (pySortedStrings s).Nodup := by
  have h := pySortedStrings_coe s
  have hs := s.nodup
  rw [← h, Multiset.coe_nodup] at hs
  exact hs

theorem pySortedStrings_mem (s : Finset String) (a : String) :
    a ∈ pySortedStrings s ↔ a ∈ s := by
  rw [← List.mem_toFinset, pySortedStrings_toFinset]

/-! ## JSON values and the compact-serialization length

`JVal` stands for the JSON payloads the analyzer walks; `jsonLen` is the exact
character count of `json.dumps(v, separators=(",", ":"))` with the default
`ensure_ascii=True` escaping. -/

inductive JVal where
  | jstr (s : String)
  | jobj (l : List (String × JVal))
  | jarr (l : List JVal)
  | jother

mutual

def JVal.deq : (a b : JVal) → Decidable (a = b)
  | .jstr s, .jstr t =>
    match decEq s t with
    | isTrue h => isTrue (by rw [h])
    | isFalse h => isFalse (by intro hc; cases hc; exact h rfl)
  | .jobj l, .jobj m =>
    match JVal.deqObj l m with
    | isTrue h => isTrue (by rw [h])
    | isFalse h => isFalse (by intro hc; cases hc; exact h rfl)
  | .jarr l, .jarr m =>
    match JVal.deqArr l m with
    | isTrue h => isTrue (by rw [h])
    | isFalse h => isFalse (by intro hc; cases hc; exact h rfl)
  | .jother, .jother => isTrue rfl
  | .jstr _, .jobj _ => isFalse (by intro hc; cases hc)
  | .jstr _, .jarr _ => isFalse (by intro hc; cases hc)
  | .jstr _, .jother => isFalse (by intro hc; cases hc)
  | .jobj _, .jstr _ => isFalse (by intro hc; cases hc)
  | .jobj _, .jarr _ => isFalse (by intro hc; cases hc)
  | .jobj _, .jother => isFalse (by intro hc; cases hc)
  | .jarr _, .jstr _ => isFalse (by intro hc; cases hc)
  | .jarr _, .jobj _ => isFalse (by intro hc; cases hc)
  | .jarr _, .jother => isFalse (by intro hc; cases hc)
  | .jother, .jstr _ => isFalse (by intro hc; cases hc)
  | .jother, .jobj _ => isFalse (by intro hc; cases hc)
  | .jother, .jarr _ => isFalse (by intro hc; cases hc)

def JVal.deqArr : (a b : List JVal) → Decidable (a = b)
  | [], [] => isTrue rfl
  | [], _ :: _ => isFalse (by intro hc; cases hc)
  | _ :: _, [] => isFalse (by intro hc; cases hc)
  | x :: xs, y :: ys =>
    match JVal.deq x y, JVal.deqArr xs ys with
    | isTrue h1, isTrue h2 => isTrue (by rw [h1, h2])
    | isFalse h1, _ => isFalse (by intro hc; cases hc; exact h1 rfl)
    | _, isFalse h2 => isFalse (by intro hc; cases hc; exact h2 rfl)

def JVal.deqObj : (a b : List (String × JVal)) → Decidable (a = b)
  | [], [] => isTrue rfl
  | [], _ :: _ => isFalse (by intro hc; cases hc)
  | _ :: _, [] => isFalse (by intro hc; cases hc)
  | (k, x) :: xs, (k2, y) :: ys =>
    match decEq k k2, JVal.deq x y, JVal.deqObj xs ys with
    | isTrue hk, isTrue h1, isTrue h2 => isTrue (by rw [hk, h1, h2])
    | isFalse hk, _, _ => isFalse (by intro hc; cases hc; exact hk rfl)
    | _, isFalse h1, _ => isFalse (by intro hc; cases hc; exact h1 rfl)
    | _, _, isFalse h2 => isFalse (by intro hc; cases hc; exact h2 rfl)

end

instance : DecidableEq JVal := JVal.deq

/-- Length contributed by one character inside a JSON string literal under
Python's `ensure_ascii=True` encoder: `"` and `\` escape to two characters,
the named control escapes to two, other control characters to `\uXXXX`,
printable ASCII to itself, and non-ASCII to one `\uXXXX` per UTF-16 code
unit. -/
def escLen (c : Char) : Nat :=
  if c = '"' ∨ c = '\\' then 2
  else if c = '\n' ∨ c = '\r' ∨ c = '\t' ∨ c.toNat = 8 ∨ c.toNat = 12 then 2
  else if c.toNat < 32 then 6
  else if c.toNat ≤ 126 then 1
  else if c.toNat ≤ 65535 then 6
  else 12

/-- Characters of the escaped body of a JSON string literal. -/
def strEscLen (s : String) : Nat :=
  (s.data.map escLen).sum

/-- Characters of a full JSON string literal, quotes included. -/
def jStrLen (s : String) : Nat :=
  2 + strEscLen s

mutual

def jsonLen : JVal → Nat
  | .jstr s => jStrLen s
  | .jobj l => 2 + jsonObjLen l + (l.length - 1)
  | .jarr l => 2 + jsonArrLen l + (l.length - 1)
  | .jother => 4

def jsonArrLen : List JVal → Nat
  | [] => 0
  | v :: vs => jsonLen v + jsonArrLen vs

def jsonObjLen : List (String × JVal) → Nat
  | [] => 0
  | (k, v) :: vs => jStrLen k + 1 + jsonLen v + jsonObjLen vs

end

/-! ## `generate_policy.py`: `PolicyStatement` and its serialization -/

/-- `PolicyStatement` of `generate_policy.py` (lines 28-66). -/
structure PolicyStatement where
  effect : String := "Allow"
  actions : Finset String := ∅
  resources : Finset String := ∅
  conditions : List (String × JVal) := []
  statement_id : Option String := none
deriving DecidableEq

/-- The value stored under the `Resource` key: either a bare JSON string or a
JSON array of strings. -/
inductive RVal where
  | rstr (s : String)
  | rarr (l : List String)
deriving DecidableEq

/-- The dictionary produced by `PolicyStatement.to_dict`: key order is
`Effect`, `Action`, optional `Sid`, `Resource`, optional `Condition`.
An empty `condition` list models the omitted `Condition` key. -/
structure StatementDict where
  effect : String
  action : List String
  sid : Option String
  resource : RVal
  condition : List (String × JVal)
deriving DecidableEq

/-- `PolicyStatement.to_dict` (`generate_policy.py` lines 38-62). -/
def PolicyStatement.to_dict (s : PolicyStatement) : StatementDict :=
  { effect := s.effect
    action := pySortedStrings s.actions
    sid := s.statement_id
    resource :=
      if s.resources ≠ ∅ then
        if s.resources.card = 1 ∧ "*" ∈ s.resources then .rstr "*"
        else .rarr (pySortedStrings s.resources)
      else .rstr "*"
    condition := s.conditions }

/-- The JSON value of a serialized statement dictionary, with the key order
`to_dict` creates. -/
def StatementDict.toJVal (d : StatementDict) : JVal :=
  .jobj ([("Effect", .jstr d.effect), ("Action", .jarr (d.action.map .jstr))]
    ++ (match d.sid with | some sid => [("Sid", JVal.jstr sid)] | none => [])
    ++ [("Resource", match d.resource with
          | .rstr s => JVal.jstr s
          | .rarr l => .jarr (l.map .jstr))]
    ++ (if d.condition.isEmpty then [] else [("Condition", JVal.jobj d.condition)]))

/-- `PolicyStatement.estimated_size` (`generate_policy.py` lines 64-66):
`len(json.dumps(self.to_dict(), separators=(",", ":")))`. -/
def PolicyStatement.estimated_size (s : PolicyStatement) : Nat :=
  jsonLen s.to_dict.toJVal

/-- `create_iam_policy` (`generate_policy.py` lines 704-709): statements with
an empty action set are dropped. -/
def create_iam_policy (statements : List PolicyStatement) : List StatementDict :=
  (statements.filter (fun s => s.actions ≠ ∅)).map PolicyStatement.to_dict

/-- The complete policy document JSON value
`{"Version": "2012-10-17", "Statement": [...]}`. -/
def policyDocumentJVal (statements : List PolicyStatement) : JVal :=
  .jobj [("Version", .jstr "2012-10-17"),
         ("Statement", .jarr ((create_iam_policy statements).map StatementDict.toJVal))]

/-- Character length of the compact JSON serialization of the final policy
document, as computed by `print_detailed_policy_summary` and
`save_policy_to_file` via `json.dumps(policy, separators=(",", ":"))`. -/
def policyDocumentLength (statements : List PolicyStatement) : Nat :=
  jsonLen (policyDocumentJVal statements)

namespace LPG

/-- `PolicyStatement` of `least_privilege_policy_generator.py` (lines 23-50):
no `statement_id` field, and `to_dict` writes no `Sid` key. -/
structure PolicyStatement where
  effect : String := "Allow"
  actions : Finset String := ∅
  resources : Finset String := ∅
  conditions : List (String × JVal) := []
deriving DecidableEq

/-- `PolicyStatement.to_dict` of `least_privilege_policy_generator.py`
(lines 32-50). -/
def PolicyStatement.to_dict (s : PolicyStatement) : StatementDict :=
  { effect := s.effect
    action := pySortedStrings s.actions
    sid := none
    resource :=
      if s.resources ≠ ∅ then
        if s.resources.card = 1 ∧ "*" ∈ s.resources then .rstr "*"
        else .rarr (pySortedStrings s.resources)
      else .rstr "*"
    condition := s.conditions }

end LPG


/-! ## `generate_policy.py`: the `EnhancedCloudTrailToIAMMapper` tables -/

/-- `_build_comprehensive_mappings` (`generate_policy.py` lines 78-365): the
curated CloudTrail-event to IAM-action table, as an association list. -/
def event_to_action_map : List (String × List String) := [
  ("s3:GetBucketVersioning", ["s3:GetBucketVersioning"]),
  ("s3:GetBucketLocation", ["s3:GetBucketLocation"]),
  ("s3:ListBucket", ["s3:ListBucket"]),
  ("s3:GetObject", ["s3:GetObject"]),
  ("s3:PutObject", ["s3:PutObject"]),
  ("s3:DeleteObject", ["s3:DeleteObject"]),
  ("s3:GetBucketPolicy", ["s3:GetBucketPolicy"]),
  ("s3:PutBucketPolicy", ["s3:PutBucketPolicy"]),
  ("s3:GetBucketAcl", ["s3:GetBucketAcl"]),
  ("s3:PutBucketAcl", ["s3:PutBucketAcl"]),
  ("s3:CreateBucket", ["s3:CreateBucket"]),
  ("s3:DeleteBucket", ["s3:DeleteBucket"]),
  ("s3:GetBucketLogging", ["s3:GetBucketLogging"]),
  ("s3:PutBucketLogging", ["s3:PutBucketLogging"]),
  ("s3:GetBucketNotification", ["s3:GetBucketNotification"]),
  ("s3:PutBucketNotification", ["s3:PutBucketNotification"]),
  ("s3:GetBucketCors", ["s3:GetBucketCORS"]),
  ("s3:PutBucketCors", ["s3:PutBucketCORS"]),
  ("s3:GetBucketWebsite", ["s3:GetBucketWebsite"]),
  ("s3:PutBucketWebsite", ["s3:PutBucketWebsite"]),
  ("s3:GetBucketEncryption", ["s3:GetEncryptionConfiguration"]),
  ("s3:PutBucketEncryption", ["s3:PutEncryptionConfiguration"]),
  ("s3:GetObjectAcl", ["s3:GetObjectAcl"]),
  ("s3:PutObjectAcl", ["s3:PutObjectAcl"]),
  ("s3:GetObjectTagging", ["s3:GetObjectTagging"]),
  ("s3:PutObjectTagging", ["s3:PutObjectTagging"]),
  ("s3:GetObjectVersion", ["s3:GetObjectVersion"]),
  ("s3:DeleteObjectVersion", ["s3:DeleteObjectVersion"]),
  ("s3:ListMultipartUploads", ["s3:ListMultipartUploadParts"]),
  ("s3:AbortMultipartUpload", ["s3:AbortMultipartUpload"]),
  ("s3:CompleteMultipartUpload", ["s3:PutObject"]),
  ("ec2:DescribeInstances", ["ec2:DescribeInstances"]),
  ("ec2:RunInstances", ["ec2:RunInstances"]),
  ("ec2:TerminateInstances", ["ec2:TerminateInstances"]),
  ("ec2:StartInstances", ["ec2:StartInstances"]),
  ("ec2:StopInstances", ["ec2:StopInstances"]),
  ("ec2:RebootInstances", ["ec2:RebootInstances"]),
  ("ec2:DescribeImages", ["ec2:DescribeImages"]),
  ("ec2:DescribeSecurityGroups", ["ec2:DescribeSecurityGroups"]),
  ("ec2:CreateSecurityGroup", ["ec2:CreateSecurityGroup"]),
  ("ec2:DeleteSecurityGroup", ["ec2:DeleteSecurityGroup"]),
  ("ec2:AuthorizeSecurityGroupIngress", ["ec2:AuthorizeSecurityGroupIngress"]),
  ("ec2:RevokeSecurityGroupIngress", ["ec2:RevokeSecurityGroupIngress"]),
  ("ec2:AuthorizeSecurityGroupEgress", ["ec2:AuthorizeSecurityGroupEgress"]),
  ("ec2:RevokeSecurityGroupEgress", ["ec2:RevokeSecurityGroupEgress"]),
  ("ec2:DescribeVpcs", ["ec2:DescribeVpcs"]),
  ("ec2:DescribeSubnets", ["ec2:DescribeSubnets"]),
  ("ec2:CreateVpc", ["ec2:CreateVpc"]),
  ("ec2:DeleteVpc", ["ec2:DeleteVpc"]),
  ("ec2:CreateSubnet", ["ec2:CreateSubnet"]),
  ("ec2:DeleteSubnet", ["ec2:DeleteSubnet"]),
  ("ec2:DescribeVolumes", ["ec2:DescribeVolumes"]),
  ("ec2:CreateVolume", ["ec2:CreateVolume"]),
  ("ec2:DeleteVolume", ["ec2:DeleteVolume"]),
  ("ec2:AttachVolume", ["ec2:AttachVolume"]),
  ("ec2:DetachVolume", ["ec2:DetachVolume"]),
  ("ec2:DescribeSnapshots", ["ec2:DescribeSnapshots"]),
  ("ec2:CreateSnapshot", ["ec2:CreateSnapshot"]),
  ("ec2:DeleteSnapshot", ["ec2:DeleteSnapshot"]),
  ("ec2:DescribeKeyPairs", ["ec2:DescribeKeyPairs"]),
  ("ec2:CreateKeyPair", ["ec2:CreateKeyPair"]),
  ("ec2:DeleteKeyPair", ["ec2:DeleteKeyPair"]),
  ("ec2:DescribeNetworkInterfaces", ["ec2:DescribeNetworkInterfaces"]),
  ("ec2:CreateNetworkInterface", ["ec2:CreateNetworkInterface"]),
  ("ec2:DeleteNetworkInterface", ["ec2:DeleteNetworkInterface"]),
  ("ec2:AttachNetworkInterface", ["ec2:AttachNetworkInterface"]),
  ("ec2:DetachNetworkInterface", ["ec2:DetachNetworkInterface"]),
  ("iam:GetUser", ["iam:GetUser"]),
  ("iam:ListUsers", ["iam:ListUsers"]),
  ("iam:CreateUser", ["iam:CreateUser"]),
  ("iam:DeleteUser", ["iam:DeleteUser"]),
  ("iam:UpdateUser", ["iam:UpdateUser"]),
  ("iam:GetRole", ["iam:GetRole"]),
  ("iam:ListRoles", ["iam:ListRoles"]),
  ("iam:CreateRole", ["iam:CreateRole"]),
  ("iam:DeleteRole", ["iam:DeleteRole"]),
  ("iam:UpdateRole", ["iam:UpdateRole"]),
  ("iam:GetPolicy", ["iam:GetPolicy"]),
  ("iam:ListPolicies", ["iam:ListPolicies"]),
  ("iam:CreatePolicy", ["iam:CreatePolicy"]),
  ("iam:DeletePolicy", ["iam:DeletePolicy"]),
  ("iam:AttachRolePolicy", ["iam:AttachRolePolicy"]),
  ("iam:DetachRolePolicy", ["iam:DetachRolePolicy"]),
  ("iam:AttachUserPolicy", ["iam:AttachUserPolicy"]),
  ("iam:DetachUserPolicy", ["iam:DetachUserPolicy"]),
  ("iam:ListAttachedRolePolicies", ["iam:ListAttachedRolePolicies"]),
  ("iam:ListAttachedUserPolicies", ["iam:ListAttachedUserPolicies"]),
  ("iam:GetAccessKeyLastUsed", ["iam:GetAccessKeyLastUsed"]),
  ("iam:CreateAccessKey", ["iam:CreateAccessKey"]),
  ("iam:DeleteAccessKey", ["iam:DeleteAccessKey"]),
  ("iam:UpdateAccessKey", ["iam:UpdateAccessKey"]),
  ("iam:ListAccessKeys", ["iam:ListAccessKeys"]),
  ("iam:GetGroup", ["iam:GetGroup"]),
  ("iam:ListGroups", ["iam:ListGroups"]),
  ("iam:CreateGroup", ["iam:CreateGroup"]),
  ("iam:DeleteGroup", ["iam:DeleteGroup"]),
  ("iam:AddUserToGroup", ["iam:AddUserToGroup"]),
  ("iam:RemoveUserFromGroup", ["iam:RemoveUserFromGroup"]),
  ("sts:AssumeRole", ["sts:AssumeRole"]),
  ("sts:GetCallerIdentity", ["sts:GetCallerIdentity"]),
  ("sts:DecodeAuthorizationMessage", ["sts:DecodeAuthorizationMessage"]),
  ("sts:GetAccessKeyInfo", ["sts:GetAccessKeyInfo"]),
  ("sts:GetSessionToken", ["sts:GetSessionToken"]),
  ("sts:AssumeRoleWithWebIdentity", ["sts:AssumeRoleWithWebIdentity"]),
  ("sts:AssumeRoleWithSAML", ["sts:AssumeRoleWithSAML"]),
  ("lambda:ListFunctions", ["lambda:ListFunctions"]),
  ("lambda:GetFunction", ["lambda:GetFunction"]),
  ("lambda:CreateFunction", ["lambda:CreateFunction"]),
  ("lambda:UpdateFunctionCode", ["lambda:UpdateFunctionCode"]),
  ("lambda:UpdateFunctionConfiguration", ["lambda:UpdateFunctionConfiguration"]),
  ("lambda:DeleteFunction", ["lambda:DeleteFunction"]),
  ("lambda:InvokeFunction", ["lambda:InvokeFunction"]),
  ("lambda:GetPolicy", ["lambda:GetPolicy"]),
  ("lambda:AddPermission", ["lambda:AddPermission"]),
  ("lambda:RemovePermission", ["lambda:RemovePermission"]),
  ("lambda:CreateEventSourceMapping", ["lambda:CreateEventSourceMapping"]),
  ("lambda:DeleteEventSourceMapping", ["lambda:DeleteEventSourceMapping"]),
  ("lambda:GetEventSourceMapping", ["lambda:GetEventSourceMapping"]),
  ("lambda:ListEventSourceMappings", ["lambda:ListEventSourceMappings"]),
  ("cloudformation:DescribeStacks", ["cloudformation:DescribeStacks"]),
  ("cloudformation:ListStacks", ["cloudformation:ListStacks"]),
  ("cloudformation:CreateStack", ["cloudformation:CreateStack"]),
  ("cloudformation:UpdateStack", ["cloudformation:UpdateStack"]),
  ("cloudformation:DeleteStack", ["cloudformation:DeleteStack"]),
  ("cloudformation:DescribeStackResources", ["cloudformation:DescribeStackResources"]),
  ("cloudformation:DescribeStackEvents", ["cloudformation:DescribeStackEvents"]),
  ("cloudformation:GetTemplate", ["cloudformation:GetTemplate"]),
  ("cloudformation:ValidateTemplate", ["cloudformation:ValidateTemplate"]),
  ("cloudformation:CreateChangeSet", ["cloudformation:CreateChangeSet"]),
  ("cloudformation:DeleteChangeSet", ["cloudformation:DeleteChangeSet"]),
  ("cloudformation:DescribeChangeSet", ["cloudformation:DescribeChangeSet"]),
  ("cloudformation:ExecuteChangeSet", ["cloudformation:ExecuteChangeSet"]),
  ("cloudwatch:GetMetricStatistics", ["cloudwatch:GetMetricStatistics"]),
  ("cloudwatch:ListMetrics", ["cloudwatch:ListMetrics"]),
  ("cloudwatch:PutMetricData", ["cloudwatch:PutMetricData"]),
  ("cloudwatch:DescribeAlarms", ["cloudwatch:DescribeAlarms"]),
  ("cloudwatch:PutMetricAlarm", ["cloudwatch:PutMetricAlarm"]),
  ("cloudwatch:DeleteAlarms", ["cloudwatch:DeleteAlarms"]),
  ("cloudwatch:EnableAlarmActions", ["cloudwatch:EnableAlarmActions"]),
  ("cloudwatch:DisableAlarmActions", ["cloudwatch:DisableAlarmActions"]),
  ("logs:CreateLogGroup", ["logs:CreateLogGroup"]),
  ("logs:CreateLogStream", ["logs:CreateLogStream"]),
  ("logs:PutLogEvents", ["logs:PutLogEvents"]),
  ("logs:DescribeLogGroups", ["logs:DescribeLogGroups"]),
  ("logs:DescribeLogStreams", ["logs:DescribeLogStreams"]),
  ("logs:GetLogEvents", ["logs:GetLogEvents"]),
  ("logs:FilterLogEvents", ["logs:FilterLogEvents"]),
  ("logs:DeleteLogGroup", ["logs:DeleteLogGroup"]),
  ("logs:DeleteLogStream", ["logs:DeleteLogStream"]),
  ("logs:PutRetentionPolicy", ["logs:PutRetentionPolicy"]),
  ("logs:DeleteRetentionPolicy", ["logs:DeleteRetentionPolicy"]),
  ("rds:DescribeDBInstances", ["rds:DescribeDBInstances"]),
  ("rds:CreateDBInstance", ["rds:CreateDBInstance"]),
  ("rds:DeleteDBInstance", ["rds:DeleteDBInstance"]),
  ("rds:ModifyDBInstance", ["rds:ModifyDBInstance"]),
  ("rds:StartDBInstance", ["rds:StartDBInstance"]),
  ("rds:StopDBInstance", ["rds:StopDBInstance"]),
  ("rds:RebootDBInstance", ["rds:RebootDBInstance"]),
  ("rds:DescribeDBClusters", ["rds:DescribeDBClusters"]),
  ("rds:CreateDBCluster", ["rds:CreateDBCluster"]),
  ("rds:DeleteDBCluster", ["rds:DeleteDBCluster"]),
  ("rds:ModifyDBCluster", ["rds:ModifyDBCluster"]),
  ("rds:DescribeDBSnapshots", ["rds:DescribeDBSnapshots"]),
  ("rds:CreateDBSnapshot", ["rds:CreateDBSnapshot"]),
  ("rds:DeleteDBSnapshot", ["rds:DeleteDBSnapshot"]),
  ("dynamodb:ListTables", ["dynamodb:ListTables"]),
  ("dynamodb:CreateTable", ["dynamodb:CreateTable"]),
  ("dynamodb:DeleteTable", ["dynamodb:DeleteTable"]),
  ("dynamodb:DescribeTable", ["dynamodb:DescribeTable"]),
  ("dynamodb:UpdateTable", ["dynamodb:UpdateTable"]),
  ("dynamodb:PutItem", ["dynamodb:PutItem"]),
  ("dynamodb:GetItem", ["dynamodb:GetItem"]),
  ("dynamodb:UpdateItem", ["dynamodb:UpdateItem"]),
  ("dynamodb:DeleteItem", ["dynamodb:DeleteItem"]),
  ("dynamodb:Query", ["dynamodb:Query"]),
  ("dynamodb:Scan", ["dynamodb:Scan"]),
  ("dynamodb:BatchGetItem", ["dynamodb:BatchGetItem"]),
  ("dynamodb:BatchWriteItem", ["dynamodb:BatchWriteItem"]),
  ("dynamodb:DescribeBackup", ["dynamodb:DescribeBackup"]),
  ("dynamodb:CreateBackup", ["dynamodb:CreateBackup"]),
  ("dynamodb:DeleteBackup", ["dynamodb:DeleteBackup"]),
  ("sns:ListTopics", ["sns:ListTopics"]),
  ("sns:CreateTopic", ["sns:CreateTopic"]),
  ("sns:DeleteTopic", ["sns:DeleteTopic"]),
  ("sns:Publish", ["sns:Publish"]),
  ("sns:Subscribe", ["sns:Subscribe"]),
  ("sns:Unsubscribe", ["sns:Unsubscribe"]),
  ("sns:GetTopicAttributes", ["sns:GetTopicAttributes"]),
  ("sns:SetTopicAttributes", ["sns:SetTopicAttributes"]),
  ("sns:ListSubscriptions", ["sns:ListSubscriptions"]),
  ("sns:ListSubscriptionsByTopic", ["sns:ListSubscriptionsByTopic"]),
  ("sqs:ListQueues", ["sqs:ListQueues"]),
  ("sqs:CreateQueue", ["sqs:CreateQueue"]),
  ("sqs:DeleteQueue", ["sqs:DeleteQueue"]),
  ("sqs:SendMessage", ["sqs:SendMessage"]),
  ("sqs:ReceiveMessage", ["sqs:ReceiveMessage"]),
  ("sqs:DeleteMessage", ["sqs:DeleteMessage"]),
  ("sqs:GetQueueAttributes", ["sqs:GetQueueAttributes"]),
  ("sqs:SetQueueAttributes", ["sqs:SetQueueAttributes"]),
  ("sqs:GetQueueUrl", ["sqs:GetQueueUrl"]),
  ("sqs:SendMessageBatch", ["sqs:SendMessage"]),
  ("sqs:DeleteMessageBatch", ["sqs:DeleteMessage"]),
  ("cloudtrail:LookupEvents", ["cloudtrail:LookupEvents"]),
  ("cloudtrail:DescribeTrails", ["cloudtrail:DescribeTrails"]),
  ("cloudtrail:GetTrailStatus", ["cloudtrail:GetTrailStatus"]),
  ("cloudtrail:CreateTrail", ["cloudtrail:CreateTrail"]),
  ("cloudtrail:DeleteTrail", ["cloudtrail:DeleteTrail"]),
  ("cloudtrail:UpdateTrail", ["cloudtrail:UpdateTrail"]),
  ("cloudtrail:StartLogging", ["cloudtrail:StartLogging"]),
  ("cloudtrail:StopLogging", ["cloudtrail:StopLogging"]),
  ("kms:Decrypt", ["kms:Decrypt"]),
  ("kms:Encrypt", ["kms:Encrypt"]),
  ("kms:GenerateDataKey", ["kms:GenerateDataKey"]),
  ("kms:DescribeKey", ["kms:DescribeKey"]),
  ("kms:ListKeys", ["kms:ListKeys"]),
  ("kms:CreateKey", ["kms:CreateKey"]),
  ("kms:DeleteKey", ["kms:ScheduleKeyDeletion"]),
  ("kms:CreateAlias", ["kms:CreateAlias"]),
  ("kms:DeleteAlias", ["kms:DeleteAlias"]),
  ("secretsmanager:GetSecretValue", ["secretsmanager:GetSecretValue"]),
  ("secretsmanager:CreateSecret", ["secretsmanager:CreateSecret"]),
  ("secretsmanager:DeleteSecret", ["secretsmanager:DeleteSecret"]),
  ("secretsmanager:UpdateSecret", ["secretsmanager:UpdateSecret"]),
  ("secretsmanager:DescribeSecret", ["secretsmanager:DescribeSecret"]),
  ("secretsmanager:ListSecrets", ["secretsmanager:ListSecrets"]),
  ("ssm:GetParameter", ["ssm:GetParameter"]),
  ("ssm:GetParameters", ["ssm:GetParameters"]),
  ("ssm:PutParameter", ["ssm:PutParameter"]),
  ("ssm:DeleteParameter", ["ssm:DeleteParameter"]),
  ("ssm:DescribeParameters", ["ssm:DescribeParameters"]),
  ("ssm:GetParametersByPath", ["ssm:GetParametersByPath"]),
  ("apigateway:GET", ["apigateway:GET"]),
  ("apigateway:POST", ["apigateway:POST"]),
  ("apigateway:PUT", ["apigateway:PUT"]),
  ("apigateway:DELETE", ["apigateway:DELETE"]),
  ("apigateway:PATCH", ["apigateway:PATCH"]),
  ("ecs:ListClusters", ["ecs:ListClusters"]),
  ("ecs:DescribeClusters", ["ecs:DescribeClusters"]),
  ("ecs:CreateCluster", ["ecs:CreateCluster"]),
  ("ecs:DeleteCluster", ["ecs:DeleteCluster"]),
  ("ecs:ListServices", ["ecs:ListServices"]),
  ("ecs:DescribeServices", ["ecs:DescribeServices"]),
  ("ecs:CreateService", ["ecs:CreateService"]),
  ("ecs:DeleteService", ["ecs:DeleteService"]),
  ("ecs:UpdateService", ["ecs:UpdateService"]),
  ("ecs:ListTasks", ["ecs:ListTasks"]),
  ("ecs:DescribeTasks", ["ecs:DescribeTasks"]),
  ("ecs:RunTask", ["ecs:RunTask"]),
  ("ecs:StopTask", ["ecs:StopTask"])
]

/-- `_build_wildcard_operations` (`generate_policy.py` lines 422-483): the
operations that must always use a wildcard resource. -/
def wildcard_operations : List (String × List String) := [
  ("ec2", ["DescribeRegions", "DescribeAvailabilityZones", "DescribeImages", "DescribeInstances", "DescribeSecurityGroups", "DescribeVpcs", "DescribeSubnets", "DescribeKeyPairs", "DescribeInstanceTypes", "DescribeVolumes", "DescribeSnapshots", "DescribeNetworkInterfaces", "DescribeRouteTables", "DescribeInternetGateways", "DescribeNatGateways"]),
  ("iam", ["ListUsers", "ListRoles", "ListPolicies", "ListGroups", "GetAccountSummary", "GetCredentialReport", "ListAccountAliases", "ListAccessKeys", "ListAttachedRolePolicies", "ListAttachedUserPolicies"]),
  ("s3", ["ListAllMyBuckets", "ListBuckets", "GetAccountPublicAccessBlock"]),
  ("lambda", ["ListFunctions", "ListLayers", "ListEventSourceMappings"]),
  ("rds", ["DescribeDBInstances", "DescribeDBClusters", "DescribeDBEngineVersions", "DescribeDBParameterGroups", "DescribeDBSubnetGroups"]),
  ("cloudformation", ["ListStacks", "DescribeStacks", "ListStackResources"]),
  ("cloudwatch", ["ListMetrics", "DescribeAlarms"]),
  ("logs", ["DescribeLogGroups", "DescribeLogStreams"]),
  ("dynamodb", ["ListTables"]),
  ("sns", ["ListTopics", "ListSubscriptions"]),
  ("sqs", ["ListQueues"]),
  ("sts", ["GetCallerIdentity", "DecodeAuthorizationMessage", "GetAccessKeyInfo"]),
  ("kms", ["ListKeys", "ListAliases"]),
  ("secretsmanager", ["ListSecrets"]),
  ("ssm", ["DescribeParameters"]),
  ("ecs", ["ListClusters", "ListServices", "ListTasks"]),
  ("cloudtrail", ["DescribeTrails", "GetTrailStatus"])
]

/-- Association-list lookup, modelling Python's `dict.get` / `in` on the
string-keyed tables. -/
def alookup (l : List (String × α)) (k : String) : Option α :=
  match l.find? (fun p => p.1 = k) with
  | some p => some p.2
  | none => none

/-- `EnhancedCloudTrailToIAMMapper.map_event_to_actions`
(`generate_policy.py` lines 485-502). -/
def map_event_to_actions (service event_name : String) : List String :=
  let event_key := service ++ ":" ++ event_name
  match alookup event_to_action_map event_key with
  | some actions => actions
  | none =>
    if (service = "s3" && pyStartsWith event_name "Get")
        || (service = "s3" && pyStartsWith event_name "Put") then
      ["s3:" ++ event_name]
    else if service = "s3" && pyStartsWith event_name "Delete" then
      ["s3:" ++ event_name]
    else
      [service ++ ":" ++ event_name]

/-- One entry of the `activities` map of a saved analysis file, restricted to
the keys `generate_policy.py` reads (`service`, `event_name`, `resources`). -/
structure AnalysisActivity where
  service : String
  event_name : String
  resources : List String
deriving DecidableEq

/-- `MIN_ARN_PARTS` (`generate_policy.py` line 24). -/
def MIN_ARN_PARTS : Nat := 3

/-- `MIN_ARN_FORMAT_PARTS` (`generate_policy.py` line 25). -/
def MIN_ARN_FORMAT_PARTS : Nat := 6

/-- `EnhancedCloudTrailToIAMMapper._is_relevant_arn`
(`generate_policy.py` lines 536-557). -/
def is_relevant_arn (arn service event_name : String) : Bool :=
  if !(pyStartsWith arn "arn:aws:") then false
  else
    let arn_parts := pySplitOn arn ":"
    if arn_parts.length < MIN_ARN_PARTS then false
    else
      let arn_service := arn_parts.getD 2 ""
      if arn_service = service then true
      else if service = "sts" && event_name = "AssumeRole" && arn_service = "iam" then true
      else service = "iam" && arn_service = "iam"

/-- `EnhancedCloudTrailToIAMMapper._is_valid_arn_format`
(`generate_policy.py` lines 559-565); the `is not None` test on the first
five parts is vacuous on strings. -/
def is_valid_arn_format (arn : String) : Bool :=
  pyStartsWith arn "arn:aws:" && (pySplitOn arn ":").length ≥ MIN_ARN_FORMAT_PARTS

/-- `EnhancedCloudTrailToIAMMapper._filter_and_validate_arns`
(`generate_policy.py` lines 522-534); the untyped `not isinstance(arn, str)`
guard is vacuous in the typed model, the emptiness guard is kept. -/
def filter_and_validate_arns (resource_arns : Finset String)
    (service event_name : String) : Finset String :=
  resource_arns.filter
    (fun arn => arn ≠ "" ∧ is_relevant_arn arn service event_name ∧ is_valid_arn_format arn)

/-- `wildcard_operations` membership test used by `extract_resource_arns`:
`service in self.wildcard_operations and event_name in self.wildcard_operations[service]`. -/
def isWildcardOperation (service event_name : String) : Bool :=
  match alookup wildcard_operations service with
  | some ops => ops.contains event_name
  | none => false

/-- `EnhancedCloudTrailToIAMMapper.extract_resource_arns`
(`generate_policy.py` lines 504-520). Python's `list(valid_arns)` over a set
is modelled by the sorted listing; every downstream consumer immediately
converts the result back to a set. -/
def extract_resource_arns (api_call_info : AnalysisActivity) : List String :=
  let service := pyLower api_call_info.service
  let event_name := api_call_info.event_name
  let resource_arns := api_call_info.resources.toFinset
  if isWildcardOperation service event_name then ["*"]
  else
    let valid_arns := filter_and_validate_arns resource_arns service event_name
    if valid_arns ≠ ∅ then pySortedStrings valid_arns
    else ["*"]

/-! ## `generate_policy.py`: statement generation and size optimization -/

/-- `MAX_POLICY_SIZE` (`generate_policy.py` line 22). -/
def MAX_POLICY_SIZE : Nat := 6144

/-- `MAX_ACTIONS_PER_STATEMENT` (`generate_policy.py` line 23). -/
def MAX_ACTIONS_PER_STATEMENT : Nat := 100

/-- One grouping bucket of `generate_policy_statements`: `key` models the
`hash(frozenset(resource_arns))` grouping key (collision-free), `actions` the
entry of `service_statements`, `resources` the entry of `service_resources`. -/
structure Bucket where
  key : Finset String
  actions : Finset String
  resources : Finset String
deriving DecidableEq

/-- Update the bucket list of one service in insertion order, as the pair of
`defaultdict(set)` updates on lines 637-638 does. -/
def updateBuckets (key actions resources : Finset String) : List Bucket → List Bucket
  | [] => [⟨key, actions, resources⟩]
  | b :: rest =>
    if b.key = key then ⟨b.key, b.actions ∪ actions, b.resources ∪ resources⟩ :: rest
    else b :: updateBuckets key actions resources rest

/-- The per-service grouping maps of `generate_policy_statements`, in
insertion order (Python dicts preserve it). -/
abbrev ServiceGroups : Type := List (String × List Bucket)

/-- Update the grouping with one service entry. -/
def updateGroups (service : String) (key actions resources : Finset String) :
    ServiceGroups → ServiceGroups
  | [] => [(service, [⟨key, actions, resources⟩])]
  | (s, bs) :: rest =>
    if s = service then (s, updateBuckets key actions resources bs) :: rest
    else (s, bs) :: updateGroups service key actions resources rest

/-- The body of the first loop of `generate_policy_statements`
(`generate_policy.py` lines 616-638) for one activity entry. -/
def groupActivity (gs : ServiceGroups) (a : AnalysisActivity) : ServiceGroups :=
  let service := pyLower a.service
  let event_name := a.event_name
  if service = "" ∨ event_name = "" then gs
  else
    let iam_actions := (map_event_to_actions service event_name).toFinset
    let resource_arns := extract_resource_arns a
    let resource_key := resource_arns.toFinset
    updateGroups service resource_key iam_actions resource_arns.toFinset gs

/-- Fuel-driven chunking; with fuel at least the list length this is Python's
`[l[i:i+k] for i in range(0, len(l), k)]` for `k ≥ 1`. -/
def chunksOfAux (k : Nat) : Nat → List α → List (List α)
  | 0, _ => []
  | _, [] => []
  | fuel + 1, l => l.take k :: chunksOfAux k fuel (l.drop k)

/-- Python's slicing loop `[l[i:i+k] for i in range(0, len(l), k)]`. -/
def chunksOf (k : Nat) (l : List α) : List (List α) :=
  chunksOfAux k l.length l

/-- The `action_chunks` split of `generate_policy_statements`
(`generate_policy.py` lines 652-654). `list(actions)` over a Python set is
modelled by the sorted listing; each slice is turned back into a set. -/
def action_chunks (actions : Finset String) : List (Finset String) :=
  if actions.card ≤ MAX_ACTIONS_PER_STATEMENT then [actions]
  else (chunksOf MAX_ACTIONS_PER_STATEMENT (pySortedStrings actions)).map List.toFinset

/-- The `for chunk in action_chunks` loop of `generate_policy_statements`
(`generate_policy.py` lines 656-663): one statement per chunk, sharing the
bucket's resource set, threading the global `statement_counter`. -/
def statements_for_chunks (service : String) (resources : Finset String) :
    List (Finset String) → Nat → List PolicyStatement × Nat
  | [], counter => ([], counter)
  | chunk :: rest, counter =>
    let stmt : PolicyStatement :=
      { actions := chunk, resources := resources,
        statement_id := some (pyTitle service ++ "Access" ++ format02 counter) }
    let r := statements_for_chunks service resources rest (counter + 1)
    (stmt :: r.1, r.2)

/-- The inner statement-construction loop of `generate_policy_statements`
(`generate_policy.py` lines 647-663) for one bucket. -/
def statements_for_bucket (service : String) (b : Bucket) (counter : Nat) :
    List PolicyStatement × Nat :=
  statements_for_chunks service b.resources (action_chunks b.actions) counter

/-- Statement construction for all buckets of one service, in insertion
order. -/
def statements_for_buckets (service : String) :
    List Bucket → Nat → List PolicyStatement × Nat
  | [], counter => ([], counter)
  | b :: rest, counter =>
    let r := statements_for_bucket service b counter
    let r2 := statements_for_buckets service rest r.2
    (r.1 ++ r2.1, r2.2)

/-- The `for service in sorted(...)` loop of `generate_policy_statements`. -/
def statements_for_services (gs : ServiceGroups) :
    List String → Nat → List PolicyStatement × Nat
  | [], counter => ([], counter)
  | service :: rest, counter =>
    match alookup gs service with
    | some bs =>
      let r := statements_for_buckets service bs counter
      let r2 := statements_for_services gs rest r.2
      (r.1 ++ r2.1, r2.2)
    | none => statements_for_services gs rest counter

/-- `generate_policy_statements` (`generate_policy.py` lines 604-666):
group the activities by service and resource-set key, then emit statements
per sorted service, chunking oversized action sets; the statement counter
starts at 1 and runs across all services. -/
def generate_policy_statements (activities : List AnalysisActivity) : List PolicyStatement :=
  let gs := activities.foldl groupActivity []
  let sortedServices := insertionSortBy pyStrLe (gs.map Prod.fst)
  (statements_for_services gs sortedServices 1).1

/-- The greedy packing loop of `optimize_policy_size`
(`generate_policy.py` lines 685-691): keep a statement while the running
total stays within the limit, otherwise skip it whole. -/
def greedyPack : List PolicyStatement → Nat → List PolicyStatement
  | [], _ => []
  | stmt :: rest, current_size =>
    let stmt_size := stmt.estimated_size
    if current_size + stmt_size ≤ MAX_POLICY_SIZE then
      stmt :: greedyPack rest (current_size + stmt_size)
    else
      greedyPack rest current_size

/-- `optimize_policy_size` (`generate_policy.py` lines 669-701). Python's
`sorted(..., key=..., reverse=True)` is a stable descending sort, matching
`mergeSort` with the reversed size comparison. -/
def optimize_policy_size (statements : List PolicyStatement) : List PolicyStatement :=
  let total_size := (statements.map PolicyStatement.estimated_size).sum
  if total_size ≤ MAX_POLICY_SIZE then statements
  else
    let sorted_statements :=
      insertionSortBy (fun a b => b.estimated_size ≤ a.estimated_size) statements
    greedyPack sorted_statements 0

/-! ## `unique_events_from_logs.py`: search criteria and principal matching -/

/-- `UserSearchCriteria` (`unique_events_from_logs.py` lines 68-75). -/
structure UserSearchCriteria where
  search_type : String
  search_value : String
  case_sensitive : Bool := false
deriving DecidableEq

/-- The `userIdentity` block of a CloudTrail record, restricted to the keys
the analyzer reads. `utype` embeds the `"type"` key (`type` is reserved in
Lean). `none` models an absent key. -/
structure UserIdentity where
  utype : Option String := none
  userName : Option String := none
  name : Option String := none
  arn : Option String := none
  accessKeyId : Option String := none
  principalId : Option String := none
deriving DecidableEq

/-- The local `compare_value` closure of `matches_user_criteria`
(`unique_events_from_logs.py` lines 182-189). -/
def compare_value (criteria : UserSearchCriteria) (field_value : String) : Bool :=
  if field_value = "" then false
  else
    let search_value :=
      if criteria.case_sensitive then criteria.search_value else pyLower criteria.search_value
    let compare_val := if criteria.case_sensitive then field_value else pyLower field_value
    pySubstr search_value compare_val

/-- The recurring pattern `field in user_identity and
compare_func(user_identity[field])` of the matchers. -/
def optCompare (compare_func : String → Bool) : Option String → Bool
  | some v => compare_func v
  | none => false

/-- `_check_username_match` (`unique_events_from_logs.py` lines 129-137):
the `userName` and `name` fields, then the ARN. -/
def check_username_match (user_identity : UserIdentity) (compare_func : String → Bool) : Bool :=
  optCompare compare_func user_identity.userName
  || optCompare compare_func user_identity.name
  || optCompare compare_func user_identity.arn

/-- `_check_access_key_match` (`unique_events_from_logs.py` lines 140-142). -/
def check_access_key_match (user_identity : UserIdentity) (compare_func : String → Bool) : Bool :=
  optCompare compare_func user_identity.accessKeyId

/-- The role-name-in-ARN check of `_check_role_name_match`
(`unique_events_from_logs.py` lines 148-151): the segment after the last
`"role/"` occurrence, up to the next `/`. -/
def roleArnCheck (compare_func : String → Bool) : Option String → Bool
  | some arn =>
    if pySubstr "role/" arn then
      compare_func ((pySplitOn ((pySplitOn arn "role/").getLastD "") "/").headD "")
    else false
  | none => false

/-- `_check_role_name_match` (`unique_events_from_logs.py` lines 145-158):
first the segment after the last `"role/"` occurrence up to the next `/`,
then, for `AssumedRole` identities, the segment after the last `/` (the
session name). -/
def check_role_name_match (user_identity : UserIdentity) (compare_func : String → Bool) : Bool :=
  roleArnCheck compare_func user_identity.arn
  || (if user_identity.utype = some "AssumedRole" then
       compare_func ((pySplitOn (user_identity.arn.getD "") "/").getLastD "")
      else false)

/-- `_check_user_arn_match` (`unique_events_from_logs.py` lines 161-163). -/
def check_user_arn_match (user_identity : UserIdentity) (compare_func : String → Bool) : Bool :=
  optCompare compare_func user_identity.arn

/-! ## `unique_events_from_logs.py`: records, resource extraction, analysis -/

/-- One entry of a record's `resources` list: the `ARN` and `type` keys. -/
structure ResourceEntry where
  arnField : Option String := none
  typeField : Option String := none
deriving DecidableEq

/-- A CloudTrail record, restricted to the keys the analyzer reads.
`eventTime` is modelled as already-parsed epoch seconds: per the input
contract, `eventTime`, when present, is a valid ISO-8601 string (the source
would raise `ValueError` inside `extract_comprehensive_resources` otherwise,
which is outside this model's domain). -/
structure CTRecord where
  eventSource : Option String := none
  eventName : Option String := none
  eventTime : Option Int := none
  userIdentity : Option UserIdentity := none
  resources : Option (List ResourceEntry) := none
  requestParameters : Option JVal := none
  responseElements : Option JVal := none
  sourceIPAddress : Option String := none
  userAgent : Option String := none
  vpcEndpointId : Option String := none
deriving DecidableEq

/-- `matches_user_criteria` (`unique_events_from_logs.py` lines 166-203). -/
def matches_user_criteria (record : CTRecord) (criteria : UserSearchCriteria) : Bool :=
  match record.userIdentity with
  | none => false
  | some user_identity =>
    let cmp := compare_value criteria
    if criteria.search_type = "username" then check_username_match user_identity cmp
    else if criteria.search_type = "access_key" then check_access_key_match user_identity cmp
    else if criteria.search_type = "role_name" then check_role_name_match user_identity cmp
    else if criteria.search_type = "user_arn" then check_user_arn_match user_identity cmp
    else false

/-- `extract_user_info` (`unique_events_from_logs.py` lines 206-273),
with the per-type helper extractors inlined. -/
def extract_user_info (record : CTRecord) : String × String :=
  match record.userIdentity with
  | none => ("Unknown", "unknown")
  | some user_identity =>
    let user_type := pyLower (user_identity.utype.getD "unknown")
    if user_type = "iamuser" then (user_identity.userName.getD "unknown", "username")
    else if user_type = "assumedrole" then
      let arn := user_identity.arn.getD ""
      if arn ≠ "" then
        let parts := pySplitOn arn "/"
        if parts.length ≥ 2 then (parts.getD (parts.length - 2) "", "role")
        else (user_identity.principalId.getD "unknown", "role")
      else (user_identity.principalId.getD "unknown", "role")
    else if user_type = "root" then ("root", "root")
    else if user_type = "samluser" ∨ user_type = "webidentityuser" then
      (user_identity.userName.getD (user_identity.principalId.getD "unknown"), user_type)
    else
      match user_identity.accessKeyId with
      | some ak => (ak, "access_key")
      | none => (user_identity.principalId.getD "unknown", user_type)

/-- Characters the tail component `[^"\s\x7d]+` of the ARN regular
expression of `extract_comprehensive_resources` may consume. -/
def isArnTailChar (c : Char) : Bool :=
  !(c = '"' || c.isWhitespace || c = '\x7d')

/-- One leftmost match of the ARN pattern
`arn:aws:[^:]+:[^:]*:[^:]*:` followed by the tail class, at the head of the
character list; returns the matched characters and the remainder. Each
character class is matched by maximal munch, which coincides with the regex
engine here because every class excludes the delimiter that follows it. -/
def matchArnAt (l : List Char) : Option (List Char × List Char) :=
  let pre := "arn:aws:".data
  if pre.isPrefixOf l then
    let r0 := l.drop 8
    let t1 := r0.takeWhile (fun c => c ≠ ':')
    if t1.isEmpty then none
    else
      match r0.drop t1.length with
      | ':' :: r1 =>
        let t2 := r1.takeWhile (fun c => c ≠ ':')
        match r1.drop t2.length with
        | ':' :: r2 =>
          let t3 := r2.takeWhile (fun c => c ≠ ':')
          match r2.drop t3.length with
          | ':' :: r3 =>
            let t4 := r3.takeWhile isArnTailChar
            if t4.isEmpty then none
            else some (pre ++ t1 ++ [':'] ++ t2 ++ [':'] ++ t3 ++ [':'] ++ t4,
                       r3.drop t4.length)
          | _ => none
        | _ => none
      | _ => none
  else none

/-- Left-to-right non-overlapping scan; the fuel starts at the list length
and every step consumes at least one character, so it never runs out. -/
def findArnsAux : Nat → List Char → List String
  | 0, _ => []
  | _, [] => []
  | fuel + 1, c :: rest =>
    match matchArnAt (c :: rest) with
    | some (m, r) => String.mk m :: findArnsAux fuel r
    | none => findArnsAux fuel rest

/-- `re.findall` of the ARN pattern of `extract_comprehensive_resources`
(`unique_events_from_logs.py` lines 318-320). -/
def findAllArns (s : String) : List String :=
  findArnsAux s.data.length s.data

mutual

def extract_arns_from_obj : JVal → List String
  | .jstr s => findAllArns s
  | .jobj l => extractArnsObjList l
  | .jarr l => extractArnsArrList l
  | .jother => []

def extractArnsObjList : List (String × JVal) → List String
  | [] => []
  | (_, v) :: rest => extract_arns_from_obj v ++ extractArnsObjList rest

def extractArnsArrList : List JVal → List String
  | [] => []
  | v :: rest => extract_arns_from_obj v ++ extractArnsArrList rest

end

mutual

def extract_from_response : JVal → List String
  | .jobj l => extractRespObjList l
  | _ => []

def extractRespObjList : List (String × JVal) → List String
  | [] => []
  | (k, v) :: rest => extractRespEntry k v ++ extractRespObjList rest

def extractRespEntry (k : String) : JVal → List String
  | .jstr s => if pyEndsWith (pyLower k) "arn" && pyStartsWith s "arn:aws:" then [s] else []
  | .jobj l => extractRespObjList l
  | .jarr items => extractRespArrItems items
  | .jother => []

def extractRespArrItems : List JVal → List String
  | [] => []
  | item :: rest =>
    (match item with | .jobj l => extractRespObjList l | _ => []) ++ extractRespArrItems rest

end

/-- Python truthiness of a JSON value; `jother` collapses null, numbers and
booleans, none of which appears as a `requestParameters` or
`responseElements` value in a CloudTrail record, so its truthiness is fixed
arbitrarily to `true`. -/
def jvalTruthy : JVal → Bool
  | .jstr s => s ≠ ""
  | .jobj l => !l.isEmpty
  | .jarr l => !l.isEmpty
  | .jother => true

/-- Hour of day of a modelled epoch-second timestamp (UTC), standing for
`datetime.fromisoformat(...).hour`. -/
def hourOfTime (t : Int) : Nat :=
  (t.emod 86400).toNat / 3600

/-- The resource-type derivations of the `resources`-field loop of
`extract_comprehensive_resources` (`unique_events_from_logs.py`
lines 292-311). -/
def resourceEntryTypes (entries : List ResourceEntry) : List String :=
  entries.flatMap (fun r =>
    (match r.arnField with
     | some arn =>
       if pyStartsWith arn "arn:aws:" then
         let parts := pySplitOn arn ":"
         if parts.length ≥ 6 then
           let service := parts.getD 2 ""
           let resource_part := parts.getD 5 ""
           let resource_type :=
             if pySubstr "/" resource_part then (pySplitOn resource_part "/").headD ""
             else resource_part
           [service ++ ":" ++ resource_type]
         else []
       else []
     | none => [])
    ++ (match r.typeField with | some t => [t] | none => []))

/-- `extract_comprehensive_resources` (`unique_events_from_logs.py`
lines 276-374): returns `(resource_arns, resource_types, conditions)`. -/
def extract_comprehensive_resources (record : CTRecord) :
    Finset String × Finset String × Finset String :=
  let entries := record.resources.getD []
  let fromDeclared := (entries.filterMap (fun r => r.arnField)).toFinset
  let fromRequest : Finset String :=
    match record.requestParameters with
    | some rp => if jvalTruthy rp then (extract_arns_from_obj rp).toFinset else ∅
    | none => ∅
  let fromResponse : Finset String :=
    match record.responseElements with
    | some rv => if jvalTruthy rv then (extract_from_response rv).toFinset else ∅
    | none => ∅
  let resource_arns := fromDeclared ∪ fromRequest ∪ fromResponse
  let resource_types := (resourceEntryTypes entries).toFinset
  let conditions : Finset String :=
    (match record.sourceIPAddress with | some ip => {"IpAddress=" ++ ip} | none => ∅) ∪
    (match record.userAgent with | some ua => {"UserAgent=" ++ ua} | none => ∅) ∪
    (match record.vpcEndpointId with
     | some v => if v ≠ "" then {"VpcEndpoint=" ++ v} else ∅
     | none => ∅) ∪
    (match record.eventTime with
     | some t =>
       let hour := hourOfTime t
       {"TimeOfDay=" ++ format02 hour ++ ":00-" ++ format02 (hour + 1) ++ ":00"}
     | none => ∅)
  (resource_arns, resource_types, conditions)

/-- A raw element of the `events` list handed to `analyze_user_activity`:
either a bare record, a record under the `CloudTrailEvent` key, or a
JSON-encoded string under that key, whose modelled `json.loads` outcome is
`none` on a decode error or a non-dict result. -/
inductive CTEvent where
  | plain (record : CTRecord)
  | wrapped (record : CTRecord)
  | wrappedStr (parsed : Option CTRecord)
deriving DecidableEq

/-- `_parse_cloudtrail_event` (`unique_events_from_logs.py` lines 377-394). -/
def parse_cloudtrail_event : CTEvent → Option CTRecord
  | .plain r => some r
  | .wrapped r => some r
  | .wrappedStr p => p

/-- The dictionary returned by `_extract_activity_data`
(`unique_events_from_logs.py` lines 443-477). -/
structure ActivityData where
  service : String
  event_name : String
  event_source : String
  action : String
  resource_arns : Finset String
  resource_types : Finset String
  conditions : Finset String
  event_time : Option Int
  source_ip : String
  user_agent : String
  request_parameters : JVal
deriving DecidableEq

/-- `_extract_activity_data` (`unique_events_from_logs.py` lines 443-477);
only reached when `eventSource` and `eventName` are present, so the `getD`
defaults model the source's direct indexing. -/
def extract_activity_data (record : CTRecord) : ActivityData :=
  let event_source := record.eventSource.getD ""
  let service := pyReplace event_source ".amazonaws.com" ""
  let event_name := record.eventName.getD ""
  let extracted := extract_comprehensive_resources record
  { service := service
    event_name := event_name
    event_source := event_source
    action := service ++ ":" ++ event_name
    resource_arns := extracted.1
    resource_types := extracted.2.1
    conditions := extracted.2.2
    event_time := record.eventTime
    source_ip := record.sourceIPAddress.getD ""
    user_agent := record.userAgent.getD ""
    request_parameters := record.requestParameters.getD (.jobj []) }

/-- `UserActivity` (`unique_events_from_logs.py` lines 32-65). -/
structure UserActivity where
  user_identifier : String
  user_type : String
  service : String
  event_name : String
  event_source : String
  resources : Finset String
  resource_types : Finset String
  actions : Finset String
  request_parameters : JVal
  conditions : Finset String
  source_ips : Finset String
  user_agents : Finset String
  count : Nat
  first_seen : Option Int
  last_seen : Option Int
deriving DecidableEq

/-- `_update_existing_activity` (`unique_events_from_logs.py`
lines 397-416), as a functional update. -/
def update_existing_activity (activity : UserActivity) (d : ActivityData) : UserActivity :=
  { activity with
    resources := activity.resources ∪ d.resource_arns
    resource_types := activity.resource_types ∪ d.resource_types
    actions := insert d.action activity.actions
    conditions := activity.conditions ∪ d.conditions
    source_ips :=
      if d.source_ip ≠ "" then insert d.source_ip activity.source_ips else activity.source_ips
    user_agents :=
      if d.user_agent ≠ "" then insert d.user_agent activity.user_agents else activity.user_agents
    count := activity.count + 1
    first_seen :=
      match d.event_time, activity.first_seen with
      | some t, none => some t
      | some t, some p => if t < p then some t else some p
      | none, p => p
    last_seen :=
      match d.event_time, activity.last_seen with
      | some t, none => some t
      | some t, some p => if t > p then some t else some p
      | none, p => p }

/-- `_create_new_activity` (`unique_events_from_logs.py` lines 419-440). -/
def create_new_activity (user_data : String × String)
    (service_data : String × String × String) (activity_data : ActivityData) : UserActivity :=
  { user_identifier := user_data.1
    user_type := user_data.2
    service := service_data.1
    event_name := service_data.2.1
    event_source := service_data.2.2
    resources := activity_data.resource_arns
    resource_types := activity_data.resource_types
    actions := {activity_data.action}
    request_parameters := activity_data.request_parameters
    conditions := activity_data.conditions
    source_ips := if activity_data.source_ip ≠ "" then {activity_data.source_ip} else ∅
    user_agents := if activity_data.user_agent ≠ "" then {activity_data.user_agent} else ∅
    count := 1
    first_seen := activity_data.event_time
    last_seen := activity_data.event_time }

/-- The mutable state of `analyze_user_activity`: the ordered activity map
(Python dicts preserve insertion order) and the two counters. -/
structure AnalyzeState where
  activities : List (String × UserActivity)
  matched_events : Nat
  total_events : Nat
deriving DecidableEq

/-- In-place update of one key of the ordered activity map. -/
def setActivity (key : String) (act : UserActivity) :
    List (String × UserActivity) → List (String × UserActivity)
  | [] => [(key, act)]
  | (k, a) :: rest =>
    if k = key then (k, act) :: rest else (k, a) :: setActivity key act rest

/-- One iteration of the loop of `analyze_user_activity`
(`unique_events_from_logs.py` lines 497-527). -/
def process_event (criteria : UserSearchCriteria) (st : AnalyzeState) (event : CTEvent) :
    AnalyzeState :=
  let st := { st with total_events := st.total_events + 1 }
  match parse_cloudtrail_event event with
  | none => st
  | some record =>
    if !matches_user_criteria record criteria then st
    else
      let st := { st with matched_events := st.matched_events + 1 }
      if record.eventSource = none ∨ record.eventName = none then st
      else
        let activity_data := extract_activity_data record
        let api_call_key := activity_data.action
        let user_info := extract_user_info record
        match alookup st.activities api_call_key with
        | some activity =>
          let updated := setActivity api_call_key
            (update_existing_activity activity activity_data) st.activities
          { st with activities := updated }
        | none =>
          let created := create_new_activity user_info
            (activity_data.service, activity_data.event_name, activity_data.event_source)
            activity_data
          { st with activities := st.activities ++ [(api_call_key, created)] }

/-- `analyze_user_activity` (`unique_events_from_logs.py` lines 480-534). -/
def analyze_user_activity (events : List CTEvent) (criteria : UserSearchCriteria) :
    AnalyzeState :=
  events.foldl (process_event criteria) ⟨[], 0, 0⟩

/-! ## Parsing a serialized statement back -/

/-- The resource set read back from a parsed `Resource` JSON value: a bare
string is one resource, an array is its element set. -/
def parseResourceSet : RVal → Finset String
  | .rstr s => {s}
  | .rarr l => l.toFinset

/-- The (permission, resource) pairs a `PolicyStatement` stands for. -/
def statementPairs (s : PolicyStatement) : Finset (String × String) :=
  s.actions ×ˢ s.resources

/-- The (permission, resource) pairs read back from a serialized statement. -/
def parsedPairs (d : StatementDict) : Finset (String × String) :=
  d.action.toFinset ×ˢ parseResourceSet d.resource

/-! ## Helper lemmas on the serializers -/

theorem card_one_star_iff (s : Finset String) : s.card = 1 ∧ "*" ∈ s ↔ s = {"*"} := by
  constructor
  · rintro ⟨h1, h2⟩
    obtain ⟨a, ha⟩ := Finset.card_eq_one.mp h1
    subst ha
    rw [Finset.mem_singleton] at h2
    rw [h2]
  · rintro rfl
    exact ⟨rfl, Finset.mem_singleton_self _⟩

theorem to_dict_resource_of_star (s : PolicyStatement) (h : s.resources = {"*"}) :
    s.to_dict.resource = RVal.rstr "*" := by
  unfold PolicyStatement.to_dict
  have hne : s.resources ≠ ∅ := by rw [h]; decide
  simp only [hne, if_true, ne_eq, not_false_iff]
  rw [if_pos ((card_one_star_iff s.resources).mpr h)]

theorem to_dict_resource_of_empty (s : PolicyStatement) (h : s.resources = ∅) :
    s.to_dict.resource = RVal.rstr "*" := by
  unfold PolicyStatement.to_dict
  simp [h]

theorem lpg_to_dict_resource_of_empty (s : LPG.PolicyStatement) (h : s.resources = ∅) :
    s.to_dict.resource = RVal.rstr "*" := by
  unfold LPG.PolicyStatement.to_dict
  simp [h]

/-! ## Claim C10 -/

/-- C10: a `PolicyStatement` whose resource set is empty serializes with
`Resource` equal to the bare string `"*"` — it is neither rejected nor given
an empty resource list — in both `generate_policy.py` and
`least_privilege_policy_generator.py`. -/
theorem c10_empty_resources_serialize_star (s : PolicyStatement) (t : LPG.PolicyStatement)
    (hs : s.resources = ∅) (ht : t.resources = ∅) :
    s.to_dict.resource = RVal.rstr "*" ∧ t.to_dict.resource = RVal.rstr "*" :=
  ⟨to_dict_resource_of_empty s hs, lpg_to_dict_resource_of_empty t ht⟩

/-- Witness for C10 at a concrete statement with one action and no
resources. -/
theorem c10_empty_resources_serialize_star_witness :
    ({ actions := {"s3:GetObject"} } : PolicyStatement).to_dict.resource = RVal.rstr "*" ∧
    ({ actions := {"s3:GetObject"} } : LPG.PolicyStatement).to_dict.resource = RVal.rstr "*" :=
  c10_empty_resources_serialize_star _ _ rfl rfl

/-! ## Claim C9 -/

/-- C9: in both serializers, the `Action` list is ascending-sorted (in the
code-point string order `pyStrLe` Python's `sorted` uses), any `Resource`
array is ascending-sorted, a resource set equal to exactly `{"*"}`
serializes as the bare string `"*"`, and any other non-empty resource set
serializes as the sorted array of its elements. -/
theorem c9_sorted_deterministic_serialization (s : PolicyStatement) (t : LPG.PolicyStatement) :
    (List.Sorted (fun a b => pyStrLe a b = true) s.to_dict.action
      ∧ (∀ l, s.to_dict.resource = RVal.rarr l → List.Sorted (fun a b => pyStrLe a b = true) l)
      ∧ (s.resources = {"*"} → s.to_dict.resource = RVal.rstr "*")
      ∧ (s.resources ≠ ∅ → s.resources ≠ {"*"} →
          s.to_dict.resource = RVal.rarr (pySortedStrings s.resources)))
    ∧ (List.Sorted (fun a b => pyStrLe a b = true) t.to_dict.action
      ∧ (∀ l, t.to_dict.resource = RVal.rarr l → List.Sorted (fun a b => pyStrLe a b = true) l)
      ∧ (t.resources = {"*"} → t.to_dict.resource = RVal.rstr "*")
      ∧ (t.resources ≠ ∅ → t.resources ≠ {"*"} →
          t.to_dict.resource = RVal.rarr (pySortedStrings t.resources))) := by
  constructor
  · refine ⟨pySortedStrings_sorted _, ?_, to_dict_resource_of_star s, ?_⟩
    · intro l hl
      unfold PolicyStatement.to_dict at hl
      simp only at hl
      split at hl
      · split at hl
        · cases hl
        · cases hl
          exact pySortedStrings_sorted _
      · cases hl
    · intro hne hstar
      unfold PolicyStatement.to_dict
      simp only [hne, if_true, ne_eq, not_false_iff]
      rw [if_neg (fun hc => hstar ((card_one_star_iff s.resources).mp hc))]
  · refine ⟨pySortedStrings_sorted _, ?_, ?_, ?_⟩
    · intro l hl
      unfold LPG.PolicyStatement.to_dict at hl
      simp only at hl
      split at hl
      · split at hl
        · cases hl
        · cases hl
          exact pySortedStrings_sorted _
      · cases hl
    · intro h
      unfold LPG.PolicyStatement.to_dict
      have hne : t.resources ≠ ∅ := by rw [h]; decide
      simp only [hne, if_true, ne_eq, not_false_iff]
      rw [if_pos ((card_one_star_iff t.resources).mpr h)]
    · intro hne hstar
      unfold LPG.PolicyStatement.to_dict
      simp only [hne, if_true, ne_eq, not_false_iff]
      rw [if_neg (fun hc => hstar ((card_one_star_iff t.resources).mp hc))]

/-- Witness for C9: the sorted-array branch at a concrete two-resource
statement of each kind. -/
theorem c9_sorted_deterministic_serialization_witness :
    ({ actions := {"s3:GetObject"}, resources := {"arn:aws:s3:::b", "arn:aws:s3:::a"} }
        : PolicyStatement).to_dict.resource
      = RVal.rarr (pySortedStrings {"arn:aws:s3:::b", "arn:aws:s3:::a"}) ∧
    ({ actions := {"s3:GetObject"}, resources := {"arn:aws:s3:::b", "arn:aws:s3:::a"} }
        : LPG.PolicyStatement).to_dict.resource
      = RVal.rarr (pySortedStrings {"arn:aws:s3:::b", "arn:aws:s3:::a"}) :=
  ⟨(c9_sorted_deterministic_serialization _ {}).1.2.2.2 (by decide) (by decide),
   (c9_sorted_deterministic_serialization {} _).2.2.2.2 (by decide) (by decide)⟩

/-! ## Claim C5 -/

/-- C5 counterexample: a statement with one action and an empty resource set
survives `create_iam_policy`, but parsing its serialization back yields the
pair set holding ("s3:GetObject", "*") while the statement it was serialized
from has no (permission, resource) pairs at all. -/
theorem c5_roundtrip_counterexample :
    create_iam_policy [{ actions := {"s3:GetObject"} }]
        = [({ actions := {"s3:GetObject"} } : PolicyStatement).to_dict]
    ∧ parsedPairs (({ actions := {"s3:GetObject"} } : PolicyStatement).to_dict)
        ≠ statementPairs { actions := {"s3:GetObject"} } := by
  constructor
  · rfl
  · intro h
    have hc : (1 : Nat) = 0 := congrArg Finset.card h
    exact Nat.one_ne_zero hc

/-- C5 (amended): for every statement whose resource set is non-empty —
which is every statement the generation pipeline produces, since
`extract_resource_arns` falls back to `["*"]` — serializing and parsing
back yields exactly the statement's (permission, resource) pairs. The
round trip fails only for the empty resource set, which parses back as
`{"*"}`. -/
theorem c5_roundtrip_nonempty (s : PolicyStatement) (h : s.resources.Nonempty) :
    parsedPairs s.to_dict = statementPairs s := by
  have hne : s.resources ≠ ∅ := Finset.nonempty_iff_ne_empty.mp h
  unfold parsedPairs statementPairs
  have hact : s.to_dict.action.toFinset = s.actions := by
    unfold PolicyStatement.to_dict
    exact pySortedStrings_toFinset _
  rw [hact]
  by_cases hstar : s.resources = {"*"}
  · rw [to_dict_resource_of_star s hstar, hstar]
    rfl
  · have hres : s.to_dict.resource = RVal.rarr (pySortedStrings s.resources) := by
      unfold PolicyStatement.to_dict
      simp only [hne, if_true, ne_eq, not_false_iff]
      rw [if_neg (fun hc => hstar ((card_one_star_iff s.resources).mp hc))]
    rw [hres]
    simp only [parseResourceSet]
    rw [pySortedStrings_toFinset]

/-- Witness for C5 at a concrete statement with two actions and two
resources. -/
theorem c5_roundtrip_nonempty_witness :
    parsedPairs ({ actions := {"s3:GetObject", "s3:PutObject"},
                   resources := {"arn:aws:s3:::b/k", "arn:aws:s3:::b/j"} }
        : PolicyStatement).to_dict
      = statementPairs { actions := {"s3:GetObject", "s3:PutObject"},
                         resources := {"arn:aws:s3:::b/k", "arn:aws:s3:::b/j"} } :=
  c5_roundtrip_nonempty _ (by decide)

/-! ## Claim C6 -/

/-- The fields `_check_username_match` reads, lowercased, with the presence
structure of the identity block kept: two records with equal views cannot be
told apart by a case-insensitive username search. -/
def usernameViewLower : Option UserIdentity → Option (Option String × Option String × Option String)
  | none => none
  | some u => some (u.userName.map pyLower, u.name.map pyLower, u.arn.map pyLower)

theorem pyLower_empty_iff (v : String) : pyLower v = "" ↔ v = "" := by
  cases v with
  | mk data =>
    cases data with
    | nil => exact ⟨fun _ => rfl, fun _ => rfl⟩
    | cons c cs =>
      constructor
      · intro h
        exact absurd (congrArg String.data h) (by simp [pyLower])
      · intro h
        exact absurd (congrArg String.data h) (by simp)

theorem compare_value_congr (criteria : UserSearchCriteria)
    (hcs : criteria.case_sensitive = false) (v w : String)
    (hv : pyLower v = pyLower w) : compare_value criteria v = compare_value criteria w := by
  unfold compare_value
  simp only [hcs, Bool.false_eq_true, if_false]
  by_cases hv0 : v = ""
  · have hw0 : w = "" := by
      rw [← pyLower_empty_iff, ← hv, pyLower_empty_iff]
      exact hv0
    rw [if_pos hv0, if_pos hw0]
  · have hw0 : w ≠ "" := by
      intro hc
      rw [← pyLower_empty_iff, hv, pyLower_empty_iff] at hv0
      exact hv0 hc
    rw [if_neg hv0, if_neg hw0, hv]

theorem matchField_congr (criteria : UserSearchCriteria)
    (hcs : criteria.case_sensitive = false) (o p : Option String)
    (ho : o.map pyLower = p.map pyLower) :
    optCompare (compare_value criteria) o = optCompare (compare_value criteria) p := by
  cases o with
  | none =>
    cases p with
    | none => rfl
    | some w => simp at ho
  | some v =>
    cases p with
    | none => exact Option.noConfusion ho
    | some w =>
      simp only [Option.map_some', Option.some.injEq] at ho
      exact compare_value_congr criteria hcs v w ho

/-- C6: principal matching with the default `case_sensitive := false` is
case-insensitive — a username search cannot distinguish identity blocks
whose name fields agree up to letter case — and in particular the criterion
`username = "Alice"` matches an identity with `userName = "alice"`. -/
theorem c6_username_matching_case_insensitive :
    (∀ (r r2 : CTRecord) (criteria : UserSearchCriteria),
        criteria.search_type = "username" → criteria.case_sensitive = false →
        usernameViewLower r.userIdentity = usernameViewLower r2.userIdentity →
        matches_user_criteria r criteria = matches_user_criteria r2 criteria)
    ∧ matches_user_criteria { userIdentity := some { userName := some "alice" } }
        ⟨"username", "Alice", false⟩ = true := by
  constructor
  · intro r r2 criteria hst hcs hv
    unfold matches_user_criteria
    cases hr : r.userIdentity with
    | none =>
      cases hr2 : r2.userIdentity with
      | none => rfl
      | some u2 => rw [hr, hr2] at hv; simp [usernameViewLower] at hv
    | some u =>
      cases hr2 : r2.userIdentity with
      | none => rw [hr, hr2] at hv; simp [usernameViewLower] at hv
      | some u2 =>
        rw [hr, hr2] at hv
        simp only [usernameViewLower, Option.some.injEq, Prod.mk.injEq] at hv
        simp only [hst, if_true, reduceIte]
        unfold check_username_match
        rw [matchField_congr criteria hcs u.userName u2.userName hv.1,
            matchField_congr criteria hcs u.name u2.name hv.2.1,
            matchField_congr criteria hcs u.arn u2.arn hv.2.2]
  · decide

/-- Witness for C6: two identities whose user names differ only in case are
matched identically by a case-insensitive username search. -/
theorem c6_username_matching_case_insensitive_witness :
    matches_user_criteria { userIdentity := some { userName := some "Bob" } }
        ⟨"username", "oB", false⟩
      = matches_user_criteria { userIdentity := some { userName := some "bOb" } }
        ⟨"username", "oB", false⟩ :=
  c6_username_matching_case_insensitive.1 _ _ _ rfl rfl (by decide)

/-! ## Claim C7 -/

/-- C7 counterexample: for the assumed-role identity with ARN
`arn:aws:sts::123456789012:assumed-role/MyRole/prod-admin` and the
case-insensitive criterion `role_name = "admin"`, the role-name extraction
succeeds and yields `MyRole`, which does not match — yet
`matches_user_criteria` still reports a match, because the session-name
fallback runs even though the extraction did not fail. -/
theorem c7_role_name_counterexample :
    ((pySplitOn ((pySplitOn "arn:aws:sts::123456789012:assumed-role/MyRole/prod-admin"
        "role/").getLastD "") "/").headD "") = "MyRole"
    ∧ compare_value ⟨"role_name", "admin", false⟩ "MyRole" = false
    ∧ matches_user_criteria
        { userIdentity := some { utype := some "AssumedRole",
                                 arn := some "arn:aws:sts::123456789012:assumed-role/MyRole/prod-admin" } }
        ⟨"role_name", "admin", false⟩ = true := by
  refine ⟨rfl, rfl, ?_⟩
  decide

/-- C7 (amended): a `role_name` search matches exactly when the identity
block is present and either (a) its ARN contains `"role/"` and the criterion
matches the path segment after the last `"role/"` occurrence, or (b) the
identity's type is `AssumedRole` and the criterion matches the final path
segment of the ARN (the session name). The session-name comparison is not
restricted to the case where the role-name extraction fails: it also runs
when the extraction succeeded but did not match. -/
theorem c7_role_name_match_semantics (record : CTRecord) (criteria : UserSearchCriteria)
    (h : criteria.search_type = "role_name") :
    matches_user_criteria record criteria = true ↔
      ∃ user_identity, record.userIdentity = some user_identity ∧
        ((∃ arn, user_identity.arn = some arn ∧ pySubstr "role/" arn = true ∧
            compare_value criteria
              ((pySplitOn ((pySplitOn arn "role/").getLastD "") "/").headD "") = true)
         ∨ (user_identity.utype = some "AssumedRole" ∧
            compare_value criteria
              ((pySplitOn (user_identity.arn.getD "") "/").getLastD "") = true)) := by
  unfold matches_user_criteria
  cases hu : record.userIdentity with
  | none =>
    simp
  | some user_identity =>
    simp only [h, Option.some.injEq]
    rw [if_neg (by decide : ¬("role_name" = "username")),
        if_neg (by decide : ¬("role_name" = "access_key"))]
    simp only [if_true]
    unfold check_role_name_match
    rw [Bool.or_eq_true]
    constructor
    · rintro (h1 | h2)
      · refine ⟨user_identity, rfl, Or.inl ?_⟩
        cases harn : user_identity.arn with
        | none => rw [harn] at h1; cases h1
        | some arn =>
          rw [harn] at h1
          simp only [roleArnCheck] at h1
          by_cases hsub : pySubstr "role/" arn = true
          · rw [if_pos hsub] at h1
            exact ⟨arn, rfl, hsub, h1⟩
          · rw [if_neg hsub] at h1
            cases h1
      · refine ⟨user_identity, rfl, Or.inr ?_⟩
        by_cases htype : user_identity.utype = some "AssumedRole"
        · rw [if_pos htype] at h2
          exact ⟨htype, h2⟩
        · rw [if_neg htype] at h2
          cases h2
    · rintro ⟨u2, hu2, hcase⟩
      cases hu2
      cases hcase with
      | inl hl =>
        obtain ⟨arn, harn, hsub, hcmp⟩ := hl
        left
        rw [harn]
        simp only [roleArnCheck]
        rw [if_pos hsub]
        exact hcmp
      | inr hr =>
        right
        rw [if_pos hr.1]
        exact hr.2

/-- Witness for C7: an IAM-role ARN whose extracted role-name segment
matches the criterion case-insensitively. -/
theorem c7_role_name_match_semantics_witness :
    matches_user_criteria
        { userIdentity := some { arn := some "arn:aws:iam::123456789012:role/Deploy" } }
        ⟨"role_name", "deploy", false⟩ = true :=
  (c7_role_name_match_semantics _ _ rfl).mpr
    ⟨{ arn := some "arn:aws:iam::123456789012:role/Deploy" }, rfl,
     Or.inl ⟨"arn:aws:iam::123456789012:role/Deploy", rfl, by decide, by decide⟩⟩

/-! ## Claim C3 -/

theorem chunksOfAux_nil (k fuel : Nat) : chunksOfAux k fuel ([] : List α) = [] := by
  cases fuel <;> rfl

theorem chunksOfAux_cons (k fuel : Nat) (c : α) (l : List α) :
    chunksOfAux k (fuel + 1) (c :: l) = (c :: l).take k :: chunksOfAux k fuel ((c :: l).drop k) :=
  rfl

theorem chunksOf_of_length_150 (l : List α) (h : l.length = 150) :
    chunksOf 100 l = [l.take 100, l.drop 100] := by
  unfold chunksOf
  rw [h]
  cases l with
  | nil => simp at h
  | cons c t =>
    rw [show (150 : Nat) = 149 + 1 from rfl, chunksOfAux_cons]
    have hlen : ((c :: t).drop 100).length = 50 := by
      rw [List.length_drop, h]
    cases hd : (c :: t).drop 100 with
    | nil => rw [hd] at hlen; simp at hlen
    | cons d u =>
      rw [show (149 : Nat) = 148 + 1 from rfl, chunksOfAux_cons]
      rw [hd] at hlen
      have htake : (d :: u).take 100 = d :: u :=
        List.take_of_length_le (by rw [hlen]; decide)
      have hdrop : (d :: u).drop 100 = [] :=
        List.drop_eq_nil_of_le (by rw [hlen]; decide)
      rw [htake, hdrop, chunksOfAux_nil]

theorem action_chunks_of_card_150 (actions : Finset String) (h : actions.card = 150) :
    action_chunks actions
      = [((pySortedStrings actions).take 100).toFinset,
         ((pySortedStrings actions).drop 100).toFinset] := by
  unfold action_chunks
  rw [h, if_neg (by decide)]
  rw [show MAX_ACTIONS_PER_STATEMENT = 100 from rfl]
  rw [chunksOf_of_length_150 _ (by rw [pySortedStrings_length, h])]
  rfl

/-- C3: a grouping bucket with 150 distinct permissions for one resource set
and the per-statement cap `MAX_ACTIONS_PER_STATEMENT = 100` produces exactly
two statements, each carrying that bucket's resource set and at most 100
actions — never a single statement with all 150 actions. -/
theorem c3_action_cap_splits_150 (service : String) (counter : Nat) (b : Bucket)
    (h : b.actions.card = 150) :
    (statements_for_bucket service b counter).1.length = 2
    ∧ ∀ stmt ∈ (statements_for_bucket service b counter).1,
        stmt.resources = b.resources ∧ stmt.actions.card ≤ 100 := by
  unfold statements_for_bucket
  rw [action_chunks_of_card_150 b.actions h]
  simp only [statements_for_chunks]
  constructor
  · rfl
  · intro stmt hstmt
    have hlen1 : ((pySortedStrings b.actions).take 100).length ≤ 100 :=
      List.length_take_le 100 _
    have hlen2 : ((pySortedStrings b.actions).drop 100).length ≤ 100 := by
      rw [List.length_drop, pySortedStrings_length, h]
      decide
    simp only [List.mem_cons, List.not_mem_nil, or_false] at hstmt
    rcases hstmt with rfl | rfl
    · exact ⟨rfl, le_trans (List.toFinset_card_le _) hlen1⟩
    · exact ⟨rfl, le_trans (List.toFinset_card_le _) hlen2⟩

/-- Witness for C3 at a concrete bucket with 150 distinct permissions. -/
theorem c3_action_cap_splits_150_witness :
    (statements_for_bucket "s3"
        ⟨{"arn:aws:s3:::b"}, ((List.range 150).map (fun n => "a" ++ toString n)).toFinset,
         {"arn:aws:s3:::b"}⟩ 1).1.length = 2 :=
  (c3_action_cap_splits_150 "s3" 1 _ (by decide)).1

/-! ## Claim C8 -/

/-- An invalid record in the sense of the spec: its payload fails to parse,
or it is missing `eventSource` or `eventName`. -/
def invalidCTEvent (e : CTEvent) : Prop :=
  parse_cloudtrail_event e = none
  ∨ ∃ r, parse_cloudtrail_event e = some r ∧ (r.eventSource = none ∨ r.eventName = none)

theorem process_event_total_events (criteria : UserSearchCriteria) (st : AnalyzeState)
    (e : CTEvent) : (process_event criteria st e).total_events = st.total_events + 1 := by
  unfold process_event
  cases parse_cloudtrail_event e with
  | none => rfl
  | some record =>
    cases hb : matches_user_criteria record criteria with
    | false => simp [hb]
    | true =>
      simp only [hb, Bool.not_true, Bool.false_eq_true, if_false]
      split
      · rfl
      · cases alookup st.activities (extract_activity_data record).action <;> rfl

theorem process_event_activities_congr (criteria : UserSearchCriteria) (e : CTEvent)
    (st st2 : AnalyzeState) (h : st.activities = st2.activities) :
    (process_event criteria st e).activities = (process_event criteria st2 e).activities := by
  unfold process_event
  cases parse_cloudtrail_event e with
  | none => exact h
  | some record =>
    cases hb : matches_user_criteria record criteria with
    | false => simp [hb, h]
    | true =>
      simp only [hb, Bool.not_true, Bool.false_eq_true, if_false]
      split
      · exact h
      · rw [h]
        cases alookup st2.activities (extract_activity_data record).action <;> rfl

theorem process_event_activities_invalid (criteria : UserSearchCriteria)
    (st : AnalyzeState) (e : CTEvent) (he : invalidCTEvent e) :
    (process_event criteria st e).activities = st.activities := by
  unfold process_event
  rcases he with hp | ⟨r, hp, hmiss⟩
  · rw [hp]
  · rw [hp]
    cases hb : matches_user_criteria r criteria with
    | false => simp [hb]
    | true =>
      simp only [hb, Bool.not_true, Bool.false_eq_true, if_false]
      rw [if_pos hmiss]

theorem analyze_foldl_activities_congr (criteria : UserSearchCriteria) (l : List CTEvent)
    (st st2 : AnalyzeState) (h : st.activities = st2.activities) :
    (l.foldl (process_event criteria) st).activities
      = (l.foldl (process_event criteria) st2).activities := by
  induction l generalizing st st2 with
  | nil => exact h
  | cons e t ih => exact ih _ _ (process_event_activities_congr criteria e st st2 h)

theorem analyze_foldl_total_events (criteria : UserSearchCriteria) (l : List CTEvent)
    (st : AnalyzeState) :
    (l.foldl (process_event criteria) st).total_events = st.total_events + l.length := by
  induction l generalizing st with
  | nil => rfl
  | cons e t ih =>
    rw [List.foldl_cons, ih, process_event_total_events, List.length_cons]
    omega

/-- C8: an invalid record — one whose payload fails to parse, or which is
missing `eventSource` or `eventName` — contributes nothing to the activity
map, is still counted in the total-events counter, and never aborts the
batch: the surrounding records produce exactly the activities they would
produce without it. -/
theorem c8_invalid_records_skipped_counted (criteria : UserSearchCriteria)
    (pre post : List CTEvent) (e : CTEvent) (he : invalidCTEvent e) :
    (analyze_user_activity (pre ++ e :: post) criteria).activities
      = (analyze_user_activity (pre ++ post) criteria).activities
    ∧ (analyze_user_activity (pre ++ e :: post) criteria).total_events
      = (analyze_user_activity (pre ++ post) criteria).total_events + 1 := by
  constructor
  · unfold analyze_user_activity
    rw [List.foldl_append, List.foldl_append, List.foldl_cons]
    exact analyze_foldl_activities_congr criteria post _ _
      (process_event_activities_invalid criteria _ e he)
  · unfold analyze_user_activity
    rw [analyze_foldl_total_events, analyze_foldl_total_events,
        List.length_append, List.length_append, List.length_cons]
    omega

/-- Witness for C8: a record that matches the criteria but has no
`eventSource` is skipped while the valid record around it is still
processed. -/
theorem c8_invalid_records_skipped_counted_witness :
    (analyze_user_activity
        [CTEvent.plain { eventName := some "GetObject",
                         userIdentity := some { userName := some "bob" } },
         CTEvent.plain { eventSource := some "s3.amazonaws.com", eventName := some "GetObject",
                         userIdentity := some { userName := some "bob" } }]
        ⟨"username", "bob", false⟩).activities
      = (analyze_user_activity
          [CTEvent.plain { eventSource := some "s3.amazonaws.com", eventName := some "GetObject",
                           userIdentity := some { userName := some "bob" } }]
          ⟨"username", "bob", false⟩).activities
    ∧ (analyze_user_activity
        [CTEvent.plain { eventName := some "GetObject",
                         userIdentity := some { userName := some "bob" } },
         CTEvent.plain { eventSource := some "s3.amazonaws.com", eventName := some "GetObject",
                         userIdentity := some { userName := some "bob" } }]
        ⟨"username", "bob", false⟩).total_events
      = (analyze_user_activity
          [CTEvent.plain { eventSource := some "s3.amazonaws.com", eventName := some "GetObject",
                           userIdentity := some { userName := some "bob" } }]
          ⟨"username", "bob", false⟩).total_events + 1 :=
  c8_invalid_records_skipped_counted ⟨"username", "bob", false⟩ []
    [CTEvent.plain { eventSource := some "s3.amazonaws.com", eventName := some "GetObject",
                     userIdentity := some { userName := some "bob" } }]
    (CTEvent.plain { eventName := some "GetObject",
                     userIdentity := some { userName := some "bob" } })
    (Or.inr ⟨_, rfl, Or.inl rfl⟩)

/-! ## Claim C4 -/

/-- Agreement on the fields the spec's ActivityRecord carries (permissions,
resources, resource types, conditions, source IPs, user agents, occurrence
count, first/last seen). The implementation's `UserActivity` additionally
stores identity data and the first event's `request_parameters`, which are
outside the spec's ActivityRecord. -/
def agreeOnActivityRecordFields (a b : UserActivity) : Prop :=
  a.actions = b.actions ∧ a.resources = b.resources ∧ a.resource_types = b.resource_types
  ∧ a.conditions = b.conditions ∧ a.source_ips = b.source_ips ∧ a.user_agents = b.user_agents
  ∧ a.count = b.count ∧ a.first_seen = b.first_seen ∧ a.last_seen = b.last_seen

theorem maybeInsert_comm (x y : String) :
    (if y ≠ "" then insert y (if x ≠ "" then ({x} : Finset String) else ∅)
     else if x ≠ "" then ({x} : Finset String) else ∅)
    = (if x ≠ "" then insert x (if y ≠ "" then ({y} : Finset String) else ∅)
       else if y ≠ "" then ({y} : Finset String) else ∅) := by
  by_cases hx : x = "" <;> by_cases hy : y = "" <;> simp [hx, hy, Finset.pair_comm]

theorem optMin_comm (t1 t2 : Option Int) :
    (match t2, t1 with
     | some t, none => some t
     | some t, some p => if t < p then some t else some p
     | none, p => p)
    = (match t1, t2 with
       | some t, none => some t
       | some t, some p => if t < p then some t else some p
       | none, p => p) := by
  cases t1 with
  | none => cases t2 <;> rfl
  | some a =>
    cases t2 with
    | none => rfl
    | some b =>
      simp only
      split_ifs with h1 h2 h2
      · omega
      · rfl
      · rfl
      · have hab : a = b := by omega
        rw [hab]

theorem optMax_comm (t1 t2 : Option Int) :
    (match t2, t1 with
     | some t, none => some t
     | some t, some p => if t > p then some t else some p
     | none, p => p)
    = (match t1, t2 with
       | some t, none => some t
       | some t, some p => if t > p then some t else some p
       | none, p => p) := by
  cases t1 with
  | none => cases t2 <;> rfl
  | some a =>
    cases t2 with
    | none => rfl
    | some b =>
      simp only
      split_ifs with h1 h2 h2
      · omega
      · rfl
      · rfl
      · have hab : a = b := by omega
        rw [hab]

/-- C4 (amended): aggregating two events in either order yields the same
values on every ActivityRecord field of the spec (the permission, resource,
resource-type, condition, source-IP and user-agent sets, the count and the
first/last timestamps) — the equality does not extend to the
implementation's extra `request_parameters` and identity fields, which keep
the first-processed event's values — and replaying the same event twice is
additive: the count becomes 1 + 1. -/
theorem c4_aggregation_commutative_fields (u1 u2 : String × String)
    (s1 s2 : String × String × String) (d1 d2 : ActivityData) :
    agreeOnActivityRecordFields
      (update_existing_activity (create_new_activity u1 s1 d1) d2)
      (update_existing_activity (create_new_activity u2 s2 d2) d1)
    ∧ (update_existing_activity (create_new_activity u1 s1 d1) d1).count = 1 + 1 := by
  constructor
  · unfold agreeOnActivityRecordFields update_existing_activity create_new_activity
    refine ⟨Finset.pair_comm _ _, Finset.union_comm _ _, Finset.union_comm _ _,
            Finset.union_comm _ _, maybeInsert_comm _ _, maybeInsert_comm _ _,
            rfl, optMin_comm _ _, optMax_comm _ _⟩
  · rfl

/-- Two CloudTrail records with the same service and operation but different
`requestParameters`, both caused by user `bob`. -/
def c4RecordA : CTRecord :=
  { eventSource := some "s3.amazonaws.com", eventName := some "GetObject",
    userIdentity := some { utype := some "IAMUser", userName := some "bob" },
    requestParameters := some (.jobj [("bucketName", .jstr "alpha")]) }

/-- Like `c4RecordA` with a different `bucketName` request parameter. -/
def c4RecordB : CTRecord :=
  { eventSource := some "s3.amazonaws.com", eventName := some "GetObject",
    userIdentity := some { utype := some "IAMUser", userName := some "bob" },
    requestParameters := some (.jobj [("bucketName", .jstr "beta")]) }

/-- C4 counterexample: two events with identical (service, operationName)
processed in the two orders produce different `UserActivity` maps — the
stored `request_parameters` is whichever event came first — so the full
aggregated record is not invariant under reordering. -/
theorem c4_reordering_counterexample :
    (extract_activity_data c4RecordA).service = (extract_activity_data c4RecordB).service
    ∧ (extract_activity_data c4RecordA).event_name
        = (extract_activity_data c4RecordB).event_name
    ∧ (analyze_user_activity [CTEvent.plain c4RecordA, CTEvent.plain c4RecordB]
          ⟨"username", "bob", false⟩).activities
        ≠ (analyze_user_activity [CTEvent.plain c4RecordB, CTEvent.plain c4RecordA]
          ⟨"username", "bob", false⟩).activities := by
  refine ⟨rfl, rfl, ?_⟩
  decide

/-! ## Claim C2 -/

theorem is_relevant_arn_star (service event_name : String) :
    is_relevant_arn "*" service event_name = false :=
  rfl

theorem extract_star_or_no_star (a : AnalysisActivity) :
    extract_resource_arns a = ["*"] ∨ "*" ∉ (extract_resource_arns a).toFinset := by
  unfold extract_resource_arns
  dsimp only
  split
  · left; rfl
  · split
    · right
      intro hmem
      rw [List.mem_toFinset, pySortedStrings_mem] at hmem
      have hpred := (Finset.mem_filter.mp hmem).2
      rw [is_relevant_arn_star] at hpred
      exact absurd hpred.2.1 (by decide)
    · left; rfl

/-- The invariant of one grouping bucket: its accumulated resource set is
exactly its grouping key, and the key is either `{"*"}` or free of `"*"`. -/
def bucketInv (b : Bucket) : Prop :=
  b.resources = b.key ∧ (b.key = {"*"} ∨ "*" ∉ b.key)

/-- The bucket invariant over the whole grouping. -/
def groupsInv (gs : ServiceGroups) : Prop :=
  ∀ p ∈ gs, ∀ b ∈ p.2, bucketInv b

theorem updateBuckets_inv (key actions resources : Finset String) (bs : List Bucket)
    (hkey : resources = key) (hstar : key = {"*"} ∨ "*" ∉ key)
    (hbs : ∀ b ∈ bs, bucketInv b) :
    ∀ b ∈ updateBuckets key actions resources bs, bucketInv b := by
  induction bs with
  | nil =>
    intro b hb
    simp only [updateBuckets, List.mem_singleton] at hb
    subst hb
    exact ⟨hkey, hstar⟩
  | cons b0 rest ih =>
    intro b hb
    unfold updateBuckets at hb
    by_cases h0 : b0.key = key
    · rw [if_pos h0] at hb
      cases hb with
      | head =>
        refine ⟨?_, (hbs b0 (List.mem_cons_self _ _)).2⟩
        rw [(hbs b0 (List.mem_cons_self _ _)).1, h0, hkey, Finset.union_self]
      | tail _ hb => exact hbs b (List.mem_cons_of_mem _ hb)
    · rw [if_neg h0] at hb
      cases hb with
      | head => exact hbs b0 (List.mem_cons_self _ _)
      | tail _ hb =>
        exact ih (fun b2 hb2 => hbs b2 (List.mem_cons_of_mem _ hb2)) b hb

theorem updateGroups_inv (service : String) (key actions resources : Finset String)
    (gs : ServiceGroups) (hkey : resources = key) (hstar : key = {"*"} ∨ "*" ∉ key)
    (hgs : groupsInv gs) :
    groupsInv (updateGroups service key actions resources gs) := by
  induction gs with
  | nil =>
    intro p hp b hb
    simp only [updateGroups, List.mem_singleton] at hp
    subst hp
    simp only [List.mem_singleton] at hb
    subst hb
    exact ⟨hkey, hstar⟩
  | cons p0 rest ih =>
    intro p hp b hb
    unfold updateGroups at hp
    by_cases h0 : p0.1 = service
    · rw [if_pos h0] at hp
      cases hp with
      | head =>
        exact updateBuckets_inv key actions resources p0.2 hkey hstar
          (fun b2 hb2 => hgs p0 (List.mem_cons_self _ _) b2 hb2) b hb
      | tail _ hp => exact hgs p (List.mem_cons_of_mem _ hp) b hb
    · rw [if_neg h0] at hp
      cases hp with
      | head => exact hgs p0 (List.mem_cons_self _ _) b hb
      | tail _ hp =>
        exact ih (fun p2 hp2 => hgs p2 (List.mem_cons_of_mem _ hp2)) p hp b hb

theorem groupActivity_inv (gs : ServiceGroups) (a : AnalysisActivity)
    (hgs : groupsInv gs) : groupsInv (groupActivity gs a) := by
  unfold groupActivity
  dsimp only
  split
  · exact hgs
  · apply updateGroups_inv _ _ _ _ _ rfl _ hgs
    cases extract_star_or_no_star a with
    | inl h => left; rw [h]; rfl
    | inr h => right; exact h

theorem grouped_inv (activities : List AnalysisActivity) (gs : ServiceGroups)
    (hgs : groupsInv gs) : groupsInv (activities.foldl groupActivity gs) := by
  induction activities generalizing gs with
  | nil => exact hgs
  | cons a rest ih => exact ih _ (groupActivity_inv gs a hgs)

theorem statements_for_chunks_resources (service : String) (resources : Finset String)
    (chunks : List (Finset String)) (counter : Nat) (stmt : PolicyStatement)
    (h : stmt ∈ (statements_for_chunks service resources chunks counter).1) :
    stmt.resources = resources := by
  induction chunks generalizing counter with
  | nil => simp [statements_for_chunks] at h
  | cons c rest ih =>
    simp only [statements_for_chunks, List.mem_cons] at h
    cases h with
    | inl h => rw [h]
    | inr h => exact ih _ h

theorem statements_for_buckets_mem (service : String) (bs : List Bucket) (counter : Nat)
    (stmt : PolicyStatement) (h : stmt ∈ (statements_for_buckets service bs counter).1) :
    ∃ b ∈ bs, stmt.resources = b.resources := by
  induction bs generalizing counter with
  | nil => simp [statements_for_buckets] at h
  | cons b0 rest ih =>
    simp only [statements_for_buckets, List.mem_append] at h
    cases h with
    | inl h =>
      exact ⟨b0, List.mem_cons_self _ _,
        statements_for_chunks_resources _ _ _ _ _ h⟩
    | inr h =>
      obtain ⟨b, hb, hres⟩ := ih _ h
      exact ⟨b, List.mem_cons_of_mem _ hb, hres⟩

theorem alookup_mem (l : List (String × α)) (k : String) (v : α)
    (h : alookup l k = some v) : ∃ p ∈ l, p.1 = k ∧ p.2 = v := by
  unfold alookup at h
  cases hf : l.find? (fun p => p.1 = k) with
  | none => rw [hf] at h; cases h
  | some p =>
    rw [hf] at h
    cases h
    refine ⟨p, List.mem_of_find?_eq_some hf, ?_, rfl⟩
    have := List.find?_some hf
    exact of_decide_eq_true this

theorem statements_for_services_mem (gs : ServiceGroups) (services : List String)
    (counter : Nat) (stmt : PolicyStatement)
    (h : stmt ∈ (statements_for_services gs services counter).1) :
    ∃ p ∈ gs, ∃ b ∈ p.2, stmt.resources = b.resources := by
  induction services generalizing counter with
  | nil => simp [statements_for_services] at h
  | cons service rest ih =>
    unfold statements_for_services at h
    cases halk : alookup gs service with
    | none =>
      rw [halk] at h
      exact ih _ h
    | some bs =>
      rw [halk] at h
      simp only [List.mem_append] at h
      cases h with
      | inl h =>
        obtain ⟨b, hb, hres⟩ := statements_for_buckets_mem _ _ _ _ h
        obtain ⟨p, hp, _, hpv⟩ := alookup_mem gs service bs halk
        exact ⟨p, hp, b, hpv ▸ hb, hres⟩
      | inr h => exact ih _ h

/-- C2: an activity whose lowercased (service, operationName) pair is in the
always-unrestricted table has `extract_resource_arns` return exactly `["*"]`
whatever references were extracted for it, and every generated statement
whose resource set contains `"*"` — in particular the statement built from
such an activity's bucket, whose grouping key is `{"*"}` — has the resource
set exactly `{"*"}` and serializes with `Resource` equal to the bare string
`"*"`. -/
theorem c2_wildcard_operations_always_star (activities : List AnalysisActivity)
    (a : AnalysisActivity) (ha : a ∈ activities)
    (hw : isWildcardOperation (pyLower a.service) a.event_name = true) :
    extract_resource_arns a = ["*"]
    ∧ ∀ stmt ∈ generate_policy_statements activities, "*" ∈ stmt.resources →
        stmt.resources = {"*"} ∧ stmt.to_dict.resource = RVal.rstr "*" := by
  constructor
  · unfold extract_resource_arns
    dsimp only
    rw [if_pos hw]
  · intro stmt hstmt hstar
    unfold generate_policy_statements at hstmt
    obtain ⟨p, hp, b, hb, hres⟩ := statements_for_services_mem _ _ _ _ hstmt
    have hinv := grouped_inv activities [] (fun p hp => absurd hp (List.not_mem_nil p))
      p hp b hb
    have hkey : stmt.resources = b.key := by rw [hres, hinv.1]
    have hsing : stmt.resources = {"*"} := by
      cases hinv.2 with
      | inl h => rw [hkey, h]
      | inr h => rw [hkey] at hstar; exact absurd hstar h
    exact ⟨hsing, to_dict_resource_of_star stmt hsing⟩

/-- Witness for C2: the `iam:ListUsers` activity of spec Scenario B with a
non-empty declared resource list still collapses to `["*"]`, and the single
statement generated from it serializes with `Resource` `"*"`. -/
theorem c2_wildcard_operations_always_star_witness :
    extract_resource_arns ⟨"iam", "ListUsers", ["arn:aws:iam::123456789012:user/bob"]⟩
      = ["*"]
    ∧ ({ actions := {"iam:ListUsers"}, resources := {"*"},
         statement_id := some "IamAccess01" } : PolicyStatement).resources = {"*"}
    ∧ ({ actions := {"iam:ListUsers"}, resources := {"*"},
         statement_id := some "IamAccess01" } : PolicyStatement).to_dict.resource
        = RVal.rstr "*" := by
  have h := c2_wildcard_operations_always_star
    [⟨"iam", "ListUsers", ["arn:aws:iam::123456789012:user/bob"]⟩]
    ⟨"iam", "ListUsers", ["arn:aws:iam::123456789012:user/bob"]⟩
    (List.mem_singleton.mpr rfl) (by decide)
  have h2 := h.2 { actions := {"iam:ListUsers"}, resources := {"*"},
                   statement_id := some "IamAccess01" } (by decide) (by decide)
  exact ⟨h.1, h2.1, h2.2⟩


/-! ## Claim C1 -/

/-- An activity set on which the optimizer's accounting and the actual
document length part ways: 87 unknown single-action operations across 87
distinct services, yielding 87 statements of 70 characters each. -/
def c1FailingActivities : List AnalysisActivity :=
  (List.range 87).map (fun k =>
    ⟨String.mk [Char.ofNat (97 + k / 10), Char.ofNat (97 + k % 10)], "E", []⟩)

/-- C1 evaluation at the failing input: the per-statement size total is 6090,
within `MAX_POLICY_SIZE = 6144`, so `optimize_policy_size` passes all 87
statements through unchanged and the run reports zero skipped statements —
yet the compact JSON serialization of the final policy document is 6215
characters, because the `{"Version":...,"Statement":[...]}` envelope and the
separators between statements (38 + 87 characters here) are not part of the
optimizer's accounting. The document exceeds the 6144-character ceiling
while the skipped-statement count is zero. -/
theorem c1_document_exceeds_ceiling_without_skips :
    ((generate_policy_statements c1FailingActivities).map PolicyStatement.estimated_size).sum
      = 6090
    ∧ 6090 ≤ MAX_POLICY_SIZE
    ∧ optimize_policy_size (generate_policy_statements c1FailingActivities)
        = generate_policy_statements c1FailingActivities
    ∧ policyDocumentLength (optimize_policy_size (generate_policy_statements c1FailingActivities))
        = 6215
    ∧ MAX_POLICY_SIZE < 6215 := by
  exact ⟨rfl, by decide, rfl, rfl, by decide⟩
